import Mathlib

/-!
Verification development for the goodreads-explorer scraper.

Python strings are modelled as `List Char` (ASCII-faithful: `str.lower`,
`str.strip` and the regex character classes are modelled on the ASCII
subset actually produced by the scraper).  Python dictionaries flowing
between the extractors and the orchestrator are modelled as structures of
`Option` fields; a field that the code can explicitly set to `None` while
other code distinguishes key presence (`'k' in d`) is modelled as
`Option (Option _)`.  Fallible constructors (pydantic validation) return
`Except`.
-/

namespace GoodreadsExplorer

/-- Python strings, modelled as lists of characters. -/
abbrev Str := List Char

deriving instance DecidableEq for Except

/-- Characters stripped by Python `str.strip()` (ASCII whitespace:
space, tab, newline, carriage return, vertical tab, form feed). -/
def pyIsSpace (c : Char) : Bool :=
  c.toNat = 32 ∨ c.toNat = 9 ∨ c.toNat = 10 ∨ c.toNat = 13 ∨ c.toNat = 11 ∨ c.toNat = 12

/-- Python `str.strip()`: drop leading and trailing whitespace. -/
def pyStrip (s : Str) : Str :=
  ((s.dropWhile pyIsSpace).reverse.dropWhile pyIsSpace).reverse

/-- Python `str.lower()` on the ASCII subset. -/
def pyLower (s : Str) : Str :=
  s.map Char.toLower

/-- Truthiness of an optional string, as Python `if s:`. -/
def truthyS : Option Str → Bool
  | none => false
  | some s => s ≠ []

/-- One genre entry cleaned: `genre.strip().lower()[:50]`. -/
def cleanGenre (g : Str) : Str :=
  (pyLower (pyStrip g)).take 50

/-- `src/parse/src/validators/data_validator.py::normalize_genres`, inner
loop.  `acc` holds the already-emitted genres in reverse order; it is also
the `seen` set, since exactly the emitted values are added to `seen`. -/
def normalizeGenresGo : List Str → List Str → List Str
  | [], acc => acc.reverse
  | g :: rest, acc =>
    let clean := cleanGenre g
    if clean ≠ [] ∧ clean ∉ acc then
      normalizeGenresGo rest (clean :: acc)
    else
      normalizeGenresGo rest acc

/-- `src/parse/src/validators/data_validator.py::normalize_genres`:
lowercase, trim, truncate each entry to 50 chars, deduplicate, consider
only the first 50 entries. -/
def normalize_genres (genres : List Str) : List Str :=
  if genres = [] then []
  else normalizeGenresGo (genres.take 50) []

/-- `src/parse/src/models/book.py::Book.normalize_genres` (the pydantic
field validator): same normalization but with no cap on the number of
input entries considered. -/
def bookNormalizeGenres (genres : List Str) : List Str :=
  if genres = [] then []
  else normalizeGenresGo genres []

/-- Does `needle` occur at the head of `s`? (model of prefix testing used
by the split/containment helpers below). -/
def leadsWith : Str → Str → Bool
  | [], _ => true
  | _ :: _, [] => false
  | p :: ps, c :: cs => p = c && leadsWith ps cs

/-- Python substring containment `needle in hay`. -/
def containsSub (needle : Str) : Str → Bool
  | [] => needle = []
  | c :: cs => leadsWith needle (c :: cs) || containsSub needle cs

/-- Worker for `pySplit`, with a structurally nonempty separator.  The
`fuel` argument only bounds the loop; every step consumes at least one
character, so `s.length` fuel always suffices. -/
def splitOnGo (c : Char) (cs : Str) : Nat → Str → Str → List Str
  | 0, _, cur => [cur.reverse]
  | fuel + 1, s, cur =>
    match s with
    | [] => [cur.reverse]
    | x :: xs =>
      if leadsWith (c :: cs) (x :: xs) then
        cur.reverse :: splitOnGo c cs fuel ((x :: xs).drop (cs.length + 1)) []
      else
        splitOnGo c cs fuel xs (x :: cur)

/-- Python `s.split(sep)` for a nonempty separator (Python raises on an
empty separator; the `[]` case is unreachable in this development). -/
def pySplit (s sep : Str) : List Str :=
  match sep with
  | [] => [s]
  | c :: cs => splitOnGo c cs s.length s []

/-- ASCII decimal digit, model of the regex class `\d`. -/
def isAsciiDigit (c : Char) : Bool :=
  48 ≤ c.toNat ∧ c.toNat ≤ 57

/-- ASCII word character, model of the regex class `\w`
(letters, digits, underscore). -/
def isWordChar (c : Char) : Bool :=
  (65 ≤ c.toNat ∧ c.toNat ≤ 90) ∨ (97 ≤ c.toNat ∧ c.toNat ≤ 122) ∨
    (48 ≤ c.toNat ∧ c.toNat ≤ 57) ∨ c.toNat = 95

/-- Character admitted inside the profile-URL slug, regex class `[\w-]`. -/
def isSlugChar (c : Char) : Bool := isWordChar c || c = '-'

/-- Match a literal pattern case-insensitively (the profile regex is
compiled with `re.IGNORECASE`) and return the remainder. -/
def stripLitCI : Str → Str → Option Str
  | [], s => some s
  | _ :: _, [] => none
  | p :: ps, c :: cs => if c.toLower = p.toLower then stripLitCI ps cs else none

/-- Match an optional literal (greedy, as the regex `(?:lit)?`; for the
literals used here greediness coincides with full backtracking). -/
def stripOptLitCI (lit : Str) (s : Str) : Str :=
  match stripLitCI lit s with
  | some r => r
  | none => s

/-- Result of matching `GOODREADS_PROFILE_PATTERN`
(`src/parse/src/validators/url_validator.py:14`): the captured numeric id,
the consumed URL path as typed in the input (used for normalization), and
the query string when present. -/
structure ProfileMatch where
  userId : Str
  path : Str
  query : Option Str
deriving DecidableEq, Repr

/-- The id/slug/query tail of `GOODREADS_PROFILE_PATTERN.match`:
`(\d+)(?:-[\w-]+)?(?:\?.*)?$` applied to the remainder `r4` of the input
after the fixed path prefix; `rPath` is the whole path-with-query suffix
(used for the captured normalization path). -/
def matchIdSlugQuery (rPath r4 : Str) : Option ProfileMatch :=
  let digits := r4.takeWhile isAsciiDigit
  if digits = [] then none
  else
    let r5 := r4.drop digits.length
    let slugRes : Option (Nat × Str) :=
      match r5 with
      | '-' :: t =>
        let w := t.takeWhile isSlugChar
        if w = [] then none else some (w.length + 1, t.drop w.length)
      | _ => some (0, r5)
    match slugRes with
    | none => none
    | some (slugLen, r6) =>
      match r6 with
      | [] =>
        some { userId := digits,
               path := rPath.take (11 + digits.length + slugLen),
               query := none }
      | '?' :: q =>
        if q.all (fun c => c ≠ '\n') then
          some { userId := digits,
                 path := rPath.take (11 + digits.length + slugLen),
                 query := some q }
        else none
      | _ => none

/-- Model of `GOODREADS_PROFILE_PATTERN.match`:
`^https?://(?:www\.)?goodreads\.com/user/show/(\d+)(?:-[\w-]+)?(?:\?.*)?$`
with `re.IGNORECASE`.  Greedy matching without backtracking is equivalent
here: after the greedy digit/slug munches the next character can never
re-enter the preceding class, so no shorter munch can succeed. -/
def matchProfile (s : Str) : Option ProfileMatch :=
  match stripLitCI (("http").data) s with
  | none => none
  | some r0 =>
    let r1 := stripOptLitCI (("s").data) r0
    match stripLitCI (("://").data) r1 with
    | none => none
    | some r2 =>
      let r3 := stripOptLitCI (("www.").data) r2
      match stripLitCI (("goodreads.com").data) r3 with
      | none => none
      | some rPath =>
        match stripLitCI (("/user/show/").data) rPath with
        | none => none
        | some r4 => matchIdSlugQuery rPath r4

/-- `src/parse/src/validators/url_validator.py::validate_goodreads_profile_url`:
returns `(is_valid, normalized_url, user_id)`.  The input is stripped
before matching; the normalized URL is rebuilt from the fixed
`https://www.goodreads.com` prefix plus the parsed path and query
(mirroring the `urlparse` reconstruction, including dropping an empty
query). -/
def validate_goodreads_profile_url (url : Str) : Bool × Str × Option Str :=
  if url = [] then (false, [], none)
  else
    let u := pyStrip url
    match matchProfile u with
    | none => (false, [], none)
    | some m =>
      let norm := (("https://www.goodreads.com").data) ++ m.path ++
        (match m.query with
         | some q => if q ≠ [] then '?' :: q else []
         | none => [])
      (true, norm, some m.userId)

/-- A member of the canonical profile-URL grammar of the spec: protocol,
optional `www.`, the fixed `/user/show/` path segment, a numeric id, an
optional slug and an optional query. -/
structure CanonicalProfileURL where
  secure : Bool
  www : Bool
  userId : Str
  slug : Option Str
  query : Option Str
deriving Repr

/-- Render a canonical profile URL as a string. -/
def renderProfileURL (c : CanonicalProfileURL) : Str :=
  (if c.secure then ("https").data else ("http").data) ++ (("://").data) ++
  (if c.www then ("www.").data else []) ++ (("goodreads.com/user/show/").data) ++
  c.userId ++
  (match c.slug with | some w => '-' :: w | none => []) ++
  (match c.query with | some q => '?' :: q | none => [])

/-- Well-formedness of the grammar components: a nonempty numeric id, a
nonempty slug over word characters and dashes, a query free of newlines
and of whitespace. -/
def wfCanonical (c : CanonicalProfileURL) : Prop :=
  c.userId ≠ [] ∧ c.userId.all isAsciiDigit = true ∧
  (∀ w, c.slug = some w → w ≠ [] ∧ w.all isSlugChar = true) ∧
  (∀ q, c.query = some q →
    q.all (fun x => x ≠ '\n') = true ∧ q.all (fun x => pyIsSpace x = false) = true)

/-- `src/parse/src/validators/data_validator.py::validate_isbn`: removes
hyphens and spaces for the length/digit checks, but returns the ORIGINAL
string unchanged when the checks pass. -/
def validate_isbn (isbn : Option Str) : Option Str :=
  match isbn with
  | none => none
  | some s =>
    let clean := s.filter (fun c => c ≠ '-' ∧ c ≠ ' ')
    if clean = [] then none
    else if ¬ (clean.length = 10 ∨ clean.length = 13) then none
    else if ¬ (clean.all (fun c => c.isDigit || c.toUpper = 'X')) then none
    else some s

/-- Decimal rendering of a natural number. -/
def natStr (n : Nat) : Str := (toString n).data

/-- User-id extraction inside `build_library_url`:
`profile_url.split('/user/show/')[-1].split('-')[0].split('?')[0]`. -/
def extract_user_id (profile_url : Str) : Str :=
  let afterShow := (pySplit profile_url (("/user/show/").data)).getLastD []
  let beforeDash := (pySplit afterShow ['-']).headD []
  (pySplit beforeDash ['?']).headD []

/-- `src/parse/src/scrapers/pagination.py::build_library_url` (signature
`(profile_url, page=1, shelf="all")`; this version has no sort
parameter).  Raises `ValueError` (modelled as `Except.error`) when the
profile URL does not contain `/user/show/`. -/
def build_library_url (profile_url : Str) (page : Nat) (shelf : Str) :
    Except Unit Str :=
  if containsSub (("/user/show/").data) profile_url then
    let user_id := extract_user_id profile_url
    let base := (("https://www.goodreads.com/review/list/").data) ++ user_id
    let params : List Str :=
      (if page > 1 then [(("page=").data) ++ natStr page] else []) ++
      (if shelf ≠ [] ∧ shelf ≠ ("all").data then [(("shelf=").data) ++ shelf]
       else if shelf = ("all").data then [("shelf=all").data]
       else [])
    if params ≠ [] then
      .ok (base ++ '?' :: List.intercalate ['&'] params)
    else
      .ok base
  else
    .error ()

/-- Outcome of one HTTP attempt inside `_fetch_with_retry`: a response
with its status code and body, or a connection/timeout exception. -/
inductive AttemptResult where
  | response (status : Nat) (body : Str)
  | connEx
  | timeoutEx
deriving DecidableEq, Repr

/-- Error taxonomy of `src/parse/src/exceptions.py` as raised by the
scraper (payload messages abstracted away). -/
inductive ScrapeError where
  | invalidURL
  | privateProfile
  | rateLimited
  | network
  | validation
deriving DecidableEq, Repr

/-- Loop body of
`src/parser/src/scrapers/goodreads_scraper.py::GoodreadsScraper._fetch_with_retry`.
`attempts i` is the outcome of the i-th HTTP attempt; the function returns
the result together with the backoff sleeps performed (in seconds) and
the number of attempts made.  A 429 response raises `RateLimitError`
before `raise_for_status`; 404 raises `InvalidURLError`; 5xx and
connection/timeout errors retry with `2 ** attempt` backoff while
`attempt < max_retries - 1`; any other 4xx raises `NetworkError`. -/
def fetchGo (attempts : Nat → AttemptResult) (maxRetries : Nat) :
    Nat → Nat → List Nat → Nat → Except ScrapeError Str × List Nat × Nat
  | 0, _, sleeps, used => (.error .network, sleeps, used)
  | rem + 1, attempt, sleeps, used =>
    if attempt < maxRetries then
      match attempts attempt with
      | .response status body =>
        if status = 429 then (.error .rateLimited, sleeps, used + 1)
        else if status < 400 then (.ok body, sleeps, used + 1)
        else if status = 404 then (.error .invalidURL, sleeps, used + 1)
        else if 500 ≤ status then
          if attempt < maxRetries - 1 then
            fetchGo attempts maxRetries rem (attempt + 1) (sleeps ++ [2 ^ attempt]) (used + 1)
          else (.error .network, sleeps, used + 1)
        else (.error .network, sleeps, used + 1)
      | .connEx =>
        if attempt < maxRetries - 1 then
          fetchGo attempts maxRetries rem (attempt + 1) (sleeps ++ [2 ^ attempt]) (used + 1)
        else (.error .network, sleeps, used + 1)
      | .timeoutEx =>
        if attempt < maxRetries - 1 then
          fetchGo attempts maxRetries rem (attempt + 1) (sleeps ++ [2 ^ attempt]) (used + 1)
        else (.error .network, sleeps, used + 1)
    else
      (.error .network, sleeps, used)

/-- `GoodreadsScraper._fetch_with_retry`: run the attempt loop from
attempt 0.  The structural argument `maxRetries` mirrors
`for attempt in range(self.max_retries)` (at most `max_retries`
iterations). -/
def fetch_with_retry (attempts : Nat → AttemptResult) (maxRetries : Nat) :
    Except ScrapeError Str × List Nat × Nat :=
  fetchGo attempts maxRetries maxRetries 0 [] 0

/-- An attempt outcome the retry loop treats as transient: a 5xx response
or a connection/timeout exception. -/
def retryable : AttemptResult → Prop
  | .response status _ => 500 ≤ status
  | .connEx => True
  | .timeoutEx => True

/-- A naive datetime (year, month, day, hour, minute, second).  Python
datetime values are modelled directly; ISO-string round-trips through the
enrichment step are modelled as the identity on well-formed dates. -/
structure PyDateTime where
  year : Nat
  month : Nat
  day : Nat
  hour : Nat := 0
  minute : Nat := 0
  second : Nat := 0
deriving DecidableEq, Repr

/-- Chronological order on datetimes (lexicographic). -/
def dtLe (a b : PyDateTime) : Bool :=
  if a.year ≠ b.year then a.year < b.year
  else if a.month ≠ b.month then a.month < b.month
  else if a.day ≠ b.day then a.day < b.day
  else if a.hour ≠ b.hour then a.hour < b.hour
  else if a.minute ≠ b.minute then a.minute < b.minute
  else a.second ≤ b.second

/-- Simplified model of the pydantic `HttpUrl` type: an http(s) scheme
followed by a nonempty host part.  The full pydantic URL grammar is not
exercised by any claim. -/
def isHttpUrl (s : Str) : Bool :=
  (leadsWith (("http://").data) s && s.length > 7) ||
  (leadsWith (("https://").data) s && s.length > 8)

/-- `src/parse/src/models/shelf.py::ReadingStatus`. -/
inductive RStatus where
  | read
  | currentlyReading
  | toRead
  | didNotFinish
  | paused
  | reference
  | toReadNext
  | toReadOwned
deriving DecidableEq, Repr

/-- The `.value` string of a `ReadingStatus` member. -/
def RStatus.value : RStatus → Str
  | .read => ("read").data
  | .currentlyReading => ("currently-reading").data
  | .toRead => ("to-read").data
  | .didNotFinish => ("did-not-finish").data
  | .paused => ("paused").data
  | .reference => ("reference").data
  | .toReadNext => ("to-read-next").data
  | .toReadOwned => ("to-read-owned").data

/-- `ReadingStatus(s)`: enum lookup by value, `none` when the string is
not a member (Python raises `ValueError`, caught by the conversion loop). -/
def rstatusOfString (s : Str) : Option RStatus :=
  if s = ("read").data then some .read
  else if s = ("currently-reading").data then some .currentlyReading
  else if s = ("to-read").data then some .toRead
  else if s = ("did-not-finish").data then some .didNotFinish
  else if s = ("paused").data then some .paused
  else if s = ("reference").data then some .reference
  else if s = ("to-read-next").data then some .toReadNext
  else if s = ("to-read-owned").data then some .toReadOwned
  else none

/-- `src/parse/src/models/shelf.py::Shelf` (validated instance). -/
structure ShelfM where
  name : Str
  is_builtin : Bool := false
  book_count : Option Nat := none
deriving DecidableEq, Repr

/-- `Shelf(name=..., is_builtin=...)`: strip (global
`str_strip_whitespace`), check 1–200 chars, then normalize to lowercase. -/
def mkShelf (name : Str) (is_builtin : Bool) : Except Unit ShelfM :=
  let st := pyStrip name
  if st = [] ∨ st.length > 200 then .error ()
  else .ok { name := pyLower st, is_builtin := is_builtin }

/-- `src/parse/src/models/user_book.py::ReadRecord` (validated). -/
structure RRecM where
  date_started : Option PyDateTime := none
  date_finished : Option PyDateTime := none
deriving DecidableEq, Repr

/-- `ReadRecord(...)`: both dates present requires start ≤ finish. -/
def mkReadRecord (ds df : Option PyDateTime) : Except Unit RRecM :=
  match ds, df with
  | some a, some b => if dtLe a b then .ok { date_started := ds, date_finished := df } else .error ()
  | _, _ => .ok { date_started := ds, date_finished := df }

/-- `src/parse/src/models/user_book.py::Review`. -/
structure ReviewM where
  review_text : Str
  review_date : Option PyDateTime := none
  likes_count : Option Nat := none
deriving DecidableEq, Repr

/-- `src/parse/src/models/book.py::LiteraryAward` (validated). -/
structure AwardM where
  name : Str
  category : Option Str := none
  year : Option Nat := none
deriving DecidableEq, Repr

/-- `LiteraryAward(...)`: name 1–200 chars, category ≤ 200 chars, year in
1000–2100. -/
def mkAward (name : Str) (category : Option Str) (year : Option Nat) : Except Unit AwardM :=
  if name = [] ∨ name.length > 200 then .error ()
  else if category.any (fun c => decide (c.length > 200)) then .error ()
  else if year.any (fun y => decide (y < 1000 ∨ y > 2100)) then .error ()
  else .ok { name := name, category := category, year := year }

/-- `src/parse/src/models/book.py::Book` (validated instance).  The
`publication_year` field is absent from the `Book` revision under
`src/parse/src/models/book.py` but is required by this repository's own
unit tests (`test_models.py` asserts it and its 1000–2100 validation) and
is read by the CSV exporter and written by the parse-tree scraper;
modelled from those callers as an optional validated year. -/
structure BookM where
  goodreads_id : Str
  title : Str
  author : Str
  additional_authors : List Str := []
  isbn : Option Str := none
  isbn13 : Option Str := none
  publication_date : Option Str := none
  publication_year : Option Nat := none
  publisher : Option Str := none
  page_count : Option Int := none
  language : Option Str := none
  setting : Option Str := none
  literary_awards : List AwardM := []
  genres : List Str := []
  average_rating : Option Rat := none
  ratings_count : Option Nat := none
  cover_image_url : Option Str := none
  goodreads_url : Str
deriving DecidableEq, Repr

/-- Distinguishable validation failures of `Book(...)` construction. -/
inductive BookErr where
  | badId
  | badTitle
  | badAuthor
  | badIsbn
  | badIsbn13
  | badYear
  | badPublisher
  | badSetting
  | badAwards
  | badGenres
  | badRating
  | badCover
  | badUrl
deriving DecidableEq, Repr

/-- Simplified model of the pydantic-extra-types `ISBN` type: 10 or 13
digits after removing hyphens/spaces (checksum abstracted away; the field
is never populated in any claim scenario). -/
def isbnTypeOk (s : Str) : Bool :=
  let clean := s.filter (fun c => c ≠ '-' ∧ c ≠ ' ')
  (clean.length = 10 ∨ clean.length = 13) && clean.all (fun c => c.isDigit || c.toUpper = 'X')

/-- The first violated constraint of `Book(...)` construction, if any:
the field constraints and validators of `src/parse/src/models/book.py`
(with global `str_strip_whitespace`), presented as an ordered checklist
scanned for the first failure.  The `page_count` before-validator never
fails (it coerces non-positive values to `None`). -/
def mkBookErr (goodreads_id : Str) (title author : Option Str) (goodreads_url : Str)
    (isbn isbn13 publication_date publisher language setting : Option Str)
    (publication_year : Option Nat) (page_count : Option Int)
    (literary_awards : List (Str × Option Str × Option Nat)) (genres : List Str)
    (average_rating : Option Rat) (ratings_count : Option Nat)
    (cover_image_url : Option Str) : Option BookErr :=
  (([
    (decide (pyStrip goodreads_id = []), BookErr.badId),
    (title.isNone, BookErr.badTitle),
    ((match title with
      | some t0 => decide (pyStrip t0 = [] ∨ (pyStrip t0).length > 1000)
      | none => false), BookErr.badTitle),
    (author.isNone, BookErr.badAuthor),
    ((match author with
      | some a0 => decide (pyStrip a0 = [] ∨ (pyStrip a0).length > 500)
      | none => false), BookErr.badAuthor),
    (isbn.any (fun s => ! isbnTypeOk s), BookErr.badIsbn),
    (isbn13.any (fun s => ! (decide (s.length = 13) && s.all Char.isDigit)), BookErr.badIsbn13),
    (publication_year.any (fun y => decide (y < 1000 ∨ y > 2100)), BookErr.badYear),
    (publisher.any (fun p => decide ((pyStrip p).length > 500)), BookErr.badPublisher),
    (setting.any (fun p => decide ((pyStrip p).length > 200)), BookErr.badSetting),
    ((match literary_awards.mapM (fun aw => mkAward (pyStrip aw.1) (aw.2.1.map pyStrip) aw.2.2) with
      | .error _ => true
      | .ok _ => false), BookErr.badAwards),
    (decide (genres.length > 100), BookErr.badGenres),
    (average_rating.any (fun r => decide (r < 0 ∨ r > 5)), BookErr.badRating),
    (cover_image_url.any (fun u => ! isHttpUrl (pyStrip u)), BookErr.badCover),
    (! isHttpUrl (pyStrip goodreads_url), BookErr.badUrl)
  ] : List (Bool × BookErr)).find? (fun c => c.1)).map (fun c => c.2)

/-- `Book(...)` construction: raise the first violated constraint, else
build the validated instance (strings stripped, genres normalized,
non-positive page counts coerced to `None`). -/
def mkBook (goodreads_id : Str) (title author : Option Str) (goodreads_url : Str)
    (isbn isbn13 publication_date publisher language setting : Option Str)
    (publication_year : Option Nat)
    (page_count : Option Int) (literary_awards : List (Str × Option Str × Option Nat))
    (genres : List Str) (average_rating : Option Rat) (ratings_count : Option Nat)
    (cover_image_url : Option Str) : Except BookErr BookM :=
  match mkBookErr goodreads_id title author goodreads_url isbn isbn13 publication_date
      publisher language setting publication_year page_count literary_awards genres
      average_rating ratings_count cover_image_url with
  | some e => .error e
  | none =>
    .ok {
      goodreads_id := pyStrip goodreads_id
      title := (match title with | some t0 => pyStrip t0 | none => [])
      author := (match author with | some a0 => pyStrip a0 | none => [])
      isbn := isbn.map pyStrip
      isbn13 := isbn13.map pyStrip
      publication_date := publication_date.map pyStrip
      publication_year := publication_year
      publisher := publisher.map pyStrip
      page_count := (match page_count with
                     | some v => if v ≤ 0 then none else some v
                     | none => none)
      language := language.map pyStrip
      setting := setting.map pyStrip
      literary_awards :=
        (match literary_awards.mapM
            (fun aw => mkAward (pyStrip aw.1) (aw.2.1.map pyStrip) aw.2.2) with
         | .ok aws => aws
         | .error _ => [])
      genres := bookNormalizeGenres (genres.map pyStrip)
      average_rating := average_rating
      ratings_count := ratings_count
      cover_image_url := cover_image_url.map pyStrip
      goodreads_url := pyStrip goodreads_url
    }

/-- `src/parse/src/models/user_book.py::UserBookRelation` (validated). -/
structure UserBookM where
  book : BookM
  user_rating : Option Nat := none
  reading_status : Option RStatus := none
  shelves : List ShelfM
  review : Option ReviewM := none
  date_added : Option PyDateTime := none
  read_records : List RRecM := []
  scraped_at : Option PyDateTime := none
deriving DecidableEq, Repr

/-- The `deduplicate_shelves` model validator: keep the first shelf for
each case-insensitive name. -/
def dedupShelvesGo : List ShelfM → List Str → List ShelfM
  | [], _ => []
  | s :: rest, seen =>
    let lower := pyLower s.name
    if lower ∈ seen then dedupShelvesGo rest seen
    else s :: dedupShelvesGo rest (lower :: seen)

/-- `UserBookRelation(...)`: rating in 1–5, 1–100 shelves before
deduplication, then case-insensitive first-wins shelf deduplication
(which must leave at least one shelf). -/
def mkUserBook (book : BookM) (user_rating : Option Nat) (reading_status : Option RStatus)
    (shelves : List ShelfM) (review : Option ReviewM) (date_added : Option PyDateTime)
    (read_records : List RRecM) (scraped_at : Option PyDateTime) : Except Unit UserBookM :=
  if user_rating.any (fun r => decide (r < 1 ∨ r > 5)) then .error ()
  else if shelves.length < 1 ∨ shelves.length > 100 then .error ()
  else
    let unique := dedupShelvesGo shelves []
    if unique = [] then .error ()
    else .ok {
      book := book
      user_rating := user_rating
      reading_status := reading_status
      shelves := unique
      review := review
      date_added := date_added
      read_records := read_records
      scraped_at := scraped_at
    }

/-- `src/parse/src/models/library.py::Library` (validated instance). -/
structure LibraryM where
  user_id : Str
  username : Str
  profile_url : Str
  user_books : List UserBookM := []
  scraped_at : PyDateTime
  schema_version : Str := ("1.0.0").data
deriving DecidableEq, Repr

/-- `Library(...)`: nonempty user id and username, an http(s) profile
URL, default schema version `1.0.0` (which satisfies the semver
validator). -/
def mkLibrary (user_id username profile_url : Str) (user_books : List UserBookM)
    (now : PyDateTime) : Except Unit LibraryM :=
  if user_id = [] ∨ username = [] then .error ()
  else if ¬ isHttpUrl profile_url then .error ()
  else .ok {
    user_id := user_id
    username := username
    profile_url := profile_url
    user_books := user_books
    scraped_at := now
  }

/-- `src/parse/src/validators/data_validator.py::sanitize_text`: strip,
map empty to `None`, optionally truncate. -/
def sanitize_text (text : Option Str) (maxLength : Option Nat) : Option Str :=
  match text with
  | none => none
  | some t0 =>
    let t := pyStrip t0
    if t = [] then none
    else
      match maxLength with
      | some m => if t.length > m then some (t.take m) else some t
      | none => some t

/-- Digits-to-number accumulator. -/
def natOfDigits (s : Str) : Nat :=
  s.foldl (fun acc c => acc * 10 + (c.toNat - 48)) 0

/-- Python `int(s)` on the inputs reachable here: optional sign and ASCII
digits after stripping whitespace; anything else raises `ValueError`
(modelled as `none`). -/
def pyToInt (s : Str) : Option Int :=
  let t := pyStrip s
  match t with
  | '-' :: ds => if ds ≠ [] ∧ ds.all Char.isDigit then some (-(Int.ofNat (natOfDigits ds))) else none
  | '+' :: ds => if ds ≠ [] ∧ ds.all Char.isDigit then some (Int.ofNat (natOfDigits ds)) else none
  | ds => if ds ≠ [] ∧ ds.all Char.isDigit then some (Int.ofNat (natOfDigits ds)) else none

/-- Python `s.split()` (no separator): split on whitespace runs, dropping
empty tokens. -/
def pySplitWs (s : Str) : List Str :=
  (s.splitOnP pyIsSpace).filter (· ≠ [])

/-- One `content` iteration of
`src/parse/src/parsers/library_parser.py::extract_rating_from_cell`:
look for `of 5 stars`, split on `of 5`, parse the last whitespace token,
accept 1–5.  `IndexError`/`ValueError` are caught and yield `none`. -/
def ratingFromContent (content : Str) : Option Nat :=
  if containsSub (("of 5 stars").data) (pyLower content) then
    let before := (pySplit content (("of 5").data)).headD []
    match (pySplitWs (pyStrip before)).getLast? with
    | none => none
    | some tok =>
      match pyToInt tok with
      | none => none
      | some r => if 1 ≤ r ∧ r ≤ 5 then some r.toNat else none
  else none

/-- `extract_rating_from_cell`: try the `staticStars` title attribute,
then its text.  The argument is the `staticStars` span when found, as the
pair (title attribute with `''` default, stripped text). -/
def extract_rating_from_cell (stars : Option (Str × Str)) : Option Nat :=
  match stars with
  | none => none
  | some (title, text) =>
    match ratingFromContent title with
    | some r => some r
    | none => ratingFromContent text

/-- Filter of `extract_shelves_from_cell`: skip star-rating and
login/signup links, keep links with `shelf=` in the href or a builtin
shelf name as text.  `text` is the link text already stripped and
lowercased, as computed in the loop. -/
def shelfLinkKept (href text : Str) : Bool :=
  if href = ['#'] ∨ containsSub (("of 5 stars").data) text ∨ containsSub (("star").data) text then
    false
  else if containsSub (("/user/new").data) href ∨ containsSub (("/user/sign_in").data) href then
    false
  else
    containsSub (("shelf=").data) href ∨ text = ("read").data ∨
      text = ("currently-reading").data ∨ text = ("to-read").data

/-- `src/parse/src/parsers/library_parser.py::extract_shelves_from_cell`:
the argument is the list of `(href, stripped text)` pairs of the cell's
anchors; returns the shelf names and the reading status inferred from the
builtin shelf names (last builtin name wins). -/
def extract_shelves_from_cell (links : List (Str × Str)) : List Str × Option Str :=
  let kept := links.filter (fun l => shelfLinkKept l.1 (pyLower (pyStrip l.2)))
  kept.foldl
    (fun st l =>
      let name := pyLower (pyStrip l.2)
      if name ≠ [] then
        let shelves := st.1 ++ [name]
        let rs :=
          if name = ("read").data then some (("read").data)
          else if name = ("currently-reading").data then some (("currently-reading").data)
          else if name = ("to-read").data then some (("to-read").data)
          else st.2
        (shelves, rs)
      else st)
    ([], none)

/-- A raw read-through record as a pair of optional dates, the shape of
the `{'date_started': ..., 'date_finished': ...}` dictionaries built by
the orchestrator. -/
abbrev RawRead := Option PyDateTime × Option PyDateTime

/-- A raw literary award `(name, category, year)` as parsed from the
detail page. -/
abbrev RawAward := Str × Option Str × Option Nat

/-- The per-item dictionary (`book_data`) flowing from the listing-row
extractor through the orchestrator into model conversion.  Fields that
code can set to `None` while the inclusion check tests key presence
(`'title' in book_data`) are `Option (Option _)`; for all other fields a
`None` value and an absent key are observationally equal downstream, so a
single `Option` is used. -/
structure RowData where
  goodreads_id : Option Str := none
  goodreads_url : Option Str := none
  title : Option (Option Str) := none
  author : Option (Option Str) := none
  user_rating : Option (Option Nat) := none
  review_url : Option Str := none
  shelves : Option (List Str) := none
  reading_status : Option Str := none
  date_added : Option PyDateTime := none
  read_records : Option (List RawRead) := none
  scraped_at : Option PyDateTime := none
  isbn : Option Str := none
  isbn13 : Option Str := none
  publication_date : Option Str := none
  publication_year : Option Nat := none
  publisher : Option Str := none
  page_count : Option Int := none
  language : Option Str := none
  setting : Option Str := none
  literary_awards : Option (List RawAward) := none
  genres : Option (List Str) := none
  average_rating : Option Rat := none
  ratings_count : Option Nat := none
  cover_image_url : Option Str := none
deriving DecidableEq, Repr

/-- The cells of one `tr.bookalike.review` row, at the granularity
`parse_book_row` consumes them: each cell is present or absent, and each
inner find may fail.  Link texts are given as `get_text(strip=True)`
results; the date cell carries the `parse_iso_date` result of its text. -/
structure RowCells where
  titleCell : Option (Option (Str × Str)) := none
  authorCell : Option (Option Str) := none
  ratingCell : Option (Option (Str × Str)) := none
  actionsCell : Option (Option Str) := none
  shelfCell : Option (List (Str × Str)) := none
  dateCell : Option (Option PyDateTime) := none
deriving DecidableEq, Repr

/-- Book-id extraction from a detail href:
`href.split('/book/show/')[-1].split('-')[0].split('?')[0]`. -/
def bookIdFromHref (href : Str) : Str :=
  let afterShow := (pySplit href (("/book/show/").data)).getLastD []
  let beforeDash := (pySplit afterShow ['-']).headD []
  (pySplit beforeDash ['?']).headD []

/-- Title-cell block of `parse_book_row`: a title link sets the `title`
key (to its sanitized text, possibly null) and, when the href contains
`/book/show/`, the `goodreads_id` and `goodreads_url` keys. -/
def rowStepTitle (tc : Option (Option (Str × Str))) (d0 : RowData) : RowData :=
  match tc with
  | some (some p) =>
    let d :=
      if containsSub (("/book/show/").data) p.1 then
        { d0 with goodreads_id := some (bookIdFromHref p.1),
                  goodreads_url := some ((("https://www.goodreads.com").data) ++ p.1) }
      else d0
    { d with title := some (sanitize_text (some p.2) none) }
  | _ => d0

/-- Author-cell block of `parse_book_row`. -/
def rowStepAuthor (ac : Option (Option Str)) (d : RowData) : RowData :=
  match ac with
  | some (some atext) => { d with author := some (sanitize_text (some atext) none) }
  | _ => d

/-- Rating-cell block of `parse_book_row` (key set whenever the cell is
present, value possibly null). -/
def rowStepRating (rc : Option (Option (Str × Str))) (d : RowData) : RowData :=
  match rc with
  | some stars => { d with user_rating := some (extract_rating_from_cell stars) }
  | none => d

/-- Actions-cell block of `parse_book_row`: a view link whose href
contains `/review/show/` sets `review_url`. -/
def rowStepActions (acc : Option (Option Str)) (d : RowData) : RowData :=
  match acc with
  | some (some href) =>
    if containsSub (("/review/show/").data) href then
      { d with review_url := some ((("https://www.goodreads.com").data) ++ href) }
    else d
  | _ => d

/-- Shelf-cell block of `parse_book_row`. -/
def rowStepShelf (sc : Option (List (Str × Str))) (d : RowData) : RowData :=
  match sc with
  | some links =>
    let sr := extract_shelves_from_cell links
    { d with shelves := some sr.1, reading_status := sr.2 }
  | none => d

/-- Date-added-cell block of `parse_book_row`. -/
def rowStepDate (dc : Option (Option PyDateTime)) (d : RowData) : RowData :=
  match dc with
  | some parsed => { d with date_added := parsed }
  | none => d

/-- The dictionary-building part of
`src/parse/src/parsers/library_parser.py::parse_book_row`: process the
title, author, rating, actions, shelf and date cells in order, setting
each key only when its cell (and inner find) succeeds. -/
def buildRowDict (r : RowCells) : RowData :=
  rowStepDate r.dateCell (rowStepShelf r.shelfCell (rowStepActions r.actionsCell
    (rowStepRating r.ratingCell (rowStepAuthor r.authorCell (rowStepTitle r.titleCell {})))))

/-- `parse_book_row`: build the row dictionary and return it only when
both the `title` and `author` keys were set (key presence via
`'title' in book_data`, not value truthiness). -/
def parse_book_row (r : RowCells) : Option RowData :=
  let d := buildRowDict r
  if d.title.isSome && d.author.isSome then some d else none

/-- `src/parse/src/parsers/library_parser.py::extract_books_from_table`:
parse each row inside a `try`, skipping rows whose parsing raises
(`Except.error`, a structural failure in the HTML library) and rows
`parse_book_row` rejects. -/
def extract_books_from_table : List (Except Unit RowCells) → List RowData
  | [] => []
  | .error _ :: rest => extract_books_from_table rest
  | .ok c :: rest =>
    match parse_book_row c with
    | some d => d :: extract_books_from_table rest
    | none => extract_books_from_table rest

/-- The result dictionary of `parse_library_page`. -/
structure Page where
  user_id : Str := ("unknown").data
  username : Str := ("unknown").data
  books : List RowData := []
  has_next_page : Bool := false

/-- `len(shelf_books) >= self.limit` with an optional limit. -/
def limitReached (limit : Option Nat) (n : Nat) : Bool :=
  limit.any (fun l => decide (n ≥ l))

/-- The eight builtin reading-status shelf slugs. -/
def builtinShelves : List Str :=
  [("read").data, ("currently-reading").data, ("to-read").data,
   ("did-not-finish").data, ("paused").data, ("reference").data,
   ("to-read-next").data, ("to-read-owned").data]

/-- `GoodreadsScraper._map_shelf_to_reading_status`: identity on the
eight builtin slugs, `None` otherwise. -/
def mapShelfToReadingStatus (slug : Str) : Option Str :=
  if slug ∈ builtinShelves then some slug else none

/-- The per-page dedup loop of `scrape_library`: keep rows whose truthy
item id has not been seen in any prior shelf or page, recording ids in
the shared `seen_book_ids` set and stopping early when the per-shelf
limit is hit.  Returns the kept rows, the new seen set and the new
per-shelf count. -/
def dedupLoop (limit : Option Nat) : List RowData → List Str → Nat →
    List RowData × List Str × Nat
  | [], seen, cnt => ([], seen, cnt)
  | b :: rest, seen, cnt =>
    match b.goodreads_id with
    | some bid =>
      if bid ≠ [] ∧ bid ∉ seen then
        let seen2 := bid :: seen
        let cnt2 := cnt + 1
        if limitReached limit cnt2 then ([b], seen2, cnt2)
        else
          let r := dedupLoop limit rest seen2 cnt2
          (b :: r.1, r.2)
      else dedupLoop limit rest seen cnt
    | none => dedupLoop limit rest seen cnt

/-- Tag every row on a page with the reading status implied by the shelf
being crawled (`book['reading_status'] = reading_status`). -/
def tagStatus (status : Option Str) (books : List RowData) : List RowData :=
  books.map (fun b => { b with reading_status := status })

/-- The per-shelf page loop of `scrape_library`: fetch a page, tag,
dedup, accumulate; stop when the limit is reached or no next page exists.
`fuel` bounds the iteration (the Python loop is unbounded; every claim is
settled within the fuel). -/
def crawlShelfLoop (fetch : Str → Nat → Page) (slug : Str) (status : Option Str)
    (limit : Option Nat) : Nat → Nat → Nat → List RowData → List Str →
    List RowData × List Str
  | 0, _, _, allBooks, seen => (allBooks, seen)
  | fuel + 1, page, shelfCnt, allBooks, seen =>
    let pg := fetch slug page
    let tagged := tagStatus status pg.books
    let r := dedupLoop limit tagged seen shelfCnt
    let all2 := allBooks ++ r.1
    if limitReached limit r.2.2 then (all2, r.2.1)
    else if ¬ pg.has_next_page then (all2, r.2.1)
    else crawlShelfLoop fetch slug status limit fuel (page + 1) r.2.2 all2 r.2.1

/-- The shelf loop of `scrape_library`: crawl each discovered shelf in
order, sharing the accumulated list and the seen-id set. -/
def crawlShelvesGo (fetch : Str → Nat → Page) (limit : Option Nat) (fuel : Nat) :
    List (Str × Nat) → List RowData → List Str → List RowData
  | [], allBooks, _ => allBooks
  | (slug, _) :: rest, allBooks, seen =>
    let status := mapShelfToReadingStatus slug
    let r := crawlShelfLoop fetch slug status limit fuel 1 0 allBooks seen
    crawlShelvesGo fetch limit fuel rest r.1 r.2

/-- The complete per-shelf crawl phase. -/
def crawlShelves (fetch : Str → Nat → Page) (shelves : List (Str × Nat))
    (limit : Option Nat) (fuel : Nat) : List RowData :=
  crawlShelvesGo fetch limit fuel shelves [] []

/-- The dates dictionary returned by
`src/parse/src/parsers/library_parser.py::parse_review_page_shelves`
(lines 357–361): exactly the keys `date_added`, `date_started`,
`date_finished`.  In particular it has NO `read_records` key, so the
orchestrator's `dates.get('read_records', [])` always yields `[]`. -/
structure ReviewDates where
  date_added : Option PyDateTime := none
  date_started : Option PyDateTime := none
  date_finished : Option PyDateTime := none
deriving DecidableEq, Repr

/-- The data obtained from a successfully fetched and parsed review
page: the `(shelves, reading_status, dates)` triple of
`parse_review_page_shelves` plus the `publisher` field that
`parse_book_page(review_html)` contributes. -/
structure ReviewPageResult where
  shelves : List Str := []
  reading_status : Option Str := none
  dates : ReviewDates := {}
  publisher : Option Str := none
deriving DecidableEq, Repr

/-- The dictionary returned by `parse_book_page` for a detail page (its
possible keys; `None`-valued entries are never inserted). -/
structure DetailData where
  isbn : Option Str := none
  isbn13 : Option Str := none
  publication_year : Option Nat := none
  publisher : Option Str := none
  page_count : Option Int := none
  genres : Option (List Str) := none
  language : Option Str := none
  setting : Option Str := none
  literary_awards : Option (List RawAward) := none
  average_rating : Option Rat := none
  ratings_count : Option Nat := none
  cover_image_url : Option Str := none
deriving DecidableEq, Repr

/-- Keep a new non-`None` value, otherwise the old one (the
`if value is not None: book_data[key] = value` merge, which OVERWRITES
already-set fields). -/
def keepNew (new old : Option α) : Option α :=
  match new with
  | some v => some v
  | none => old

/-- The detail-page merge loop of `scrape_library`
(`for key, value in detailed_data.items(): if value is not None: ...`). -/
def mergeDetail (b : RowData) (dd : DetailData) : RowData :=
  { b with
    isbn := keepNew dd.isbn b.isbn
    isbn13 := keepNew dd.isbn13 b.isbn13
    publication_year := keepNew dd.publication_year b.publication_year
    publisher := keepNew dd.publisher b.publisher
    page_count := keepNew dd.page_count b.page_count
    genres := keepNew dd.genres b.genres
    language := keepNew dd.language b.language
    setting := keepNew dd.setting b.setting
    literary_awards := keepNew dd.literary_awards b.literary_awards
    average_rating := keepNew dd.average_rating b.average_rating
    ratings_count := keepNew dd.ratings_count b.ratings_count
    cover_image_url := keepNew dd.cover_image_url b.cover_image_url }

/-- The successful review-page branch of the per-item enrichment
(`scrape_library` lines 283–316): fill the reading status if still
unset, prepend the status to the shelf list when missing, take
`date_added` from the review page, set `read_records` from
`dates.get('read_records', [])` (always `[]`, see `ReviewDates`),
synthesizing one null-dated record when the status is `read`, and update
the publisher when the review page names one. -/
def enrichReview (rp : ReviewPageResult) (b0 : RowData) : RowData :=
  let b := if ¬ truthyS b0.reading_status then
      { b0 with reading_status := rp.reading_status } else b0
  let rs := b.reading_status
  let shelves :=
    match rs with
    | some st => if st ≠ [] ∧ st ∉ rp.shelves then st :: rp.shelves else rp.shelves
    | none => rp.shelves
  let rrecs : List RawRead := []
  let rrecs := if rs = some (("read").data) ∧ rrecs = [] then
      [((none : Option PyDateTime), (none : Option PyDateTime))] else rrecs
  let b := { b with shelves := some shelves,
                    date_added := rp.dates.date_added,
                    read_records := some rrecs }
  match rp.publisher with
  | some p => if p ≠ [] then { b with publisher := some p } else b
  | none => b

/-- The detail-page branch of the per-item enrichment (`scrape_library`
lines 326–354): when the row has a truthy detail URL and its fetch
succeeds, merge the detail fields (overwriting). -/
def enrichDetail (detailOf : Str → Option DetailData) (b : RowData) : RowData :=
  match b.goodreads_url with
  | some gurl =>
    if gurl ≠ [] then
      match detailOf gurl with
      | none => b
      | some dd => mergeDetail b dd
    else b
  | none => b

/-- The per-item enrichment step of `scrape_library` (lines 270–354):
stamp `scraped_at`; when the row has a truthy review URL and its fetch
and parse succeed (`reviewOf` returns `some`), apply the review-page
updates; then apply the detail-page merge.  A failed fetch/parse
(`none`) leaves the row as it was (the exception is caught and
logged). -/
def enrichBook (now : PyDateTime) (reviewOf : Str → Option ReviewPageResult)
    (detailOf : Str → Option DetailData) (b0 : RowData) : RowData :=
  let b := { b0 with scraped_at := some now }
  let b :=
    match b.review_url with
    | some rurl =>
      if rurl ≠ [] then
        match reviewOf rurl with
        | none => b
        | some rp => enrichReview rp b
      else b
    | none => b
  enrichDetail detailOf b

/-- `dict.get(key, default)` for a key whose value can itself be `None`. -/
def getD2 (v : Option (Option α)) (d : α) : Option α :=
  match v with
  | none => some d
  | some x => x

/-- `GoodreadsScraper._convert_to_models`, one row: build the award,
book, shelf, status, read-record and relation models; any validation
error (`ValueError` from the enum included) skips the row.  A row with no
`goodreads_url` key gets the placeholder `https://www.goodreads.com`; a
row with no shelves gets the synthetic `unknown` shelf.  The `Book(...)`
call is split out as `rawBookModel`. -/
def rawBookModel (raw : RowData) : Except BookErr BookM :=
  mkBook
    (match raw.goodreads_id with | some s => s | none => [])
    (getD2 raw.title [])
    (getD2 raw.author [])
    (match raw.goodreads_url with | some s => s | none => ("https://www.goodreads.com").data)
    raw.isbn raw.isbn13 raw.publication_date raw.publisher raw.language raw.setting
    raw.publication_year raw.page_count
    (match raw.literary_awards with | some l => l | none => [])
    (match raw.genres with | some g => g | none => [])
    raw.average_rating raw.ratings_count raw.cover_image_url

def convertRow (raw : RowData) : Option UserBookM :=
  match rawBookModel raw with
  | .error _ => none
  | .ok book =>
    let shelfNames := (match raw.shelves with | some l => l | none => [])
    match shelfNames.mapM (fun n => mkShelf n (n ∈ builtinShelves)) with
    | .error _ => none
    | .ok shelves0 =>
      let shelves :=
        if shelves0 = [] then [{ name := ("unknown").data, is_builtin := false }] else shelves0
      let rstatusE : Except Unit (Option RStatus) :=
        match raw.reading_status with
        | some s =>
          if s ≠ [] then
            match rstatusOfString s with
            | some st => .ok (some st)
            | none => .error ()
          else .ok none
        | none => .ok none
      match rstatusE with
      | .error _ => none
      | .ok rstatus =>
        match (match raw.read_records with | some l => l | none => []).mapM
            (fun (rr : RawRead) => mkReadRecord rr.1 rr.2) with
        | .error _ => none
        | .ok rrecs =>
          match mkUserBook book (match raw.user_rating with | some v => v | none => none)
              rstatus shelves none raw.date_added rrecs raw.scraped_at with
          | .error _ => none
          | .ok ub => some ub

/-- `GoodreadsScraper._convert_to_models`: convert each raw row, dropping
rows whose conversion raises. -/
def convert_to_models (raws : List RowData) : List UserBookM :=
  raws.filterMap convertRow

/-- `GoodreadsScraper.scrape_library`, with HTTP and HTML parsing
abstracted as oracles: `isPrivate` is the private-profile marker check on
the initial page, `initialPage` its parse, `discovered` the
`parse_reading_status_shelves` result, `fetch` the fetched-and-parsed
listing page per (shelf, page), `reviewOf`/`detailOf` the per-item
review/detail fetch-and-parse results (`none` = fetch failed).  The
optional client-side random shuffle is not requested (`sort_by` ≠
`random`), hence omitted. -/
def scrape_library (profileUrl : Str) (isPrivate : Bool) (initialPage : Page)
    (discovered : List (Str × Nat)) (fetch : Str → Nat → Page)
    (reviewOf : Str → Option ReviewPageResult) (detailOf : Str → Option DetailData)
    (limit : Option Nat) (now : PyDateTime) (fuel : Nat) : Except ScrapeError LibraryM :=
  let v := validate_goodreads_profile_url profileUrl
  if ¬ (v.1 ∧ truthyS v.2.2) then .error .invalidURL
  else
    let user_id := v.2.2.getD []
    let norm := v.2.1
    let username :=
      if containsSub ['-'] norm then
        let url_username := (pySplit norm (("/user/show/").data)).getLastD []
        if containsSub ['-'] url_username then
          let joined := List.intercalate ['-'] ((pySplit url_username ['-']).drop 1)
          (pySplit ((pySplit joined ['?']).headD []) ['/']).headD []
        else ("unknown").data
      else ("unknown").data
    if isPrivate then .error .privateProfile
    else
      let username :=
        if initialPage.username ≠ [] ∧ initialPage.username ≠ ("unknown").data then
          initialPage.username
        else username
      let shelves_to_scrape := discovered.filter (fun p => p.1 ≠ ("all").data)
      let all_books := crawlShelves fetch shelves_to_scrape limit fuel
      let enriched := all_books.map (enrichBook now reviewOf detailOf)
      let user_books := convert_to_models enriched
      match mkLibrary user_id username norm user_books now with
      | .ok lib => .ok lib
      | .error _ => .error .validation

/-- Zero-padded decimal rendering. -/
def natPad (w n : Nat) : Str :=
  let s := natStr n
  List.replicate (w - s.length) '0' ++ s

/-- Decimal rendering of an integer. -/
def intStr (i : Int) : Str :=
  if i < 0 then '-' :: natStr i.natAbs else natStr i.toNat

/-- Injective placeholder rendering of a float value (the exact Python
float formatting is immaterial to every claim). -/
def ratStr (q : Rat) : Str :=
  intStr q.num ++ ['/'] ++ natStr q.den

/-- `csv_exporter._format_datetime`: `%Y-%m-%dT%H:%M:%SZ`, empty for
`None`. -/
def format_datetime (dt : Option PyDateTime) : Str :=
  match dt with
  | none => []
  | some d =>
    natPad 4 d.year ++ '-' :: natPad 2 d.month ++ '-' :: natPad 2 d.day ++
      'T' :: natPad 2 d.hour ++ ':' :: natPad 2 d.minute ++ ':' :: natPad 2 d.second ++ ['Z']

/-- `csv_exporter._format_list_field`: pipe-join, empty for `[]`. -/
def format_list_field (items : List Str) : Str :=
  if items = [] then [] else List.intercalate ['|'] items

/-- `csv_exporter._truncate_review`: at most 1000 chars, with a `...`
suffix when truncated. -/
def truncate_review (text : Str) (maxLength : Nat) : Str :=
  if text = [] then []
  else if text.length ≤ maxLength then text
  else text.take (maxLength - 3) ++ ("...").data

/-- Python `x or ""` for an optional count (0 is falsy). -/
def orEmptyNat (v : Option Nat) : Str :=
  match v with
  | some n => if n = 0 then [] else natStr n
  | none => []

/-- Python `x or ""` for an optional integer. -/
def orEmptyInt (v : Option Int) : Str :=
  match v with
  | some n => if n = 0 then [] else intStr n
  | none => []

/-- Python `x or ""` for an optional float. -/
def orEmptyRat (v : Option Rat) : Str :=
  match v with
  | some q => if q = 0 then [] else ratStr q
  | none => []

/-- Python `s or ""` for an optional string. -/
def orEmptyStr (v : Option Str) : Str :=
  match v with
  | some s => s
  | none => []

/-- One CSV row, with the 28 contract columns (all values rendered as the
strings `csv.DictWriter` would write). -/
structure CsvRow where
  user_id : Str
  username : Str
  goodreads_book_id : Str
  title : Str
  author : Str
  additional_authors : Str
  isbn : Str
  isbn13 : Str
  publication_year : Str
  publisher : Str
  page_count : Str
  language : Str
  genres : Str
  average_rating : Str
  ratings_count : Str
  user_rating : Str
  reading_status : Str
  shelf_name : Str
  is_builtin_shelf : Str
  has_review : Str
  review_text_preview : Str
  review_date : Str
  likes_count : Str
  date_added : Str
  date_started : Str
  date_finished : Str
  scraped_at : Str
  schema_version : Str
deriving DecidableEq, Repr

/-- The row literal of `csv_exporter.library_to_csv_rows` for one
`(user_book, shelf)` pair.  `reading_status` renders
`user_book.reading_status.value` and is only evaluated under the
`isSome` guard of `rowsForBook`. -/
def csvRowFor (lib : LibraryM) (ub : UserBookM) (shelf : ShelfM) : CsvRow :=
  { user_id := lib.user_id
    username := lib.username
    goodreads_book_id := ub.book.goodreads_id
    title := ub.book.title
    author := ub.book.author
    additional_authors := format_list_field ub.book.additional_authors
    isbn := (match ub.book.isbn with | some s => s | none => [])
    isbn13 := orEmptyStr ub.book.isbn13
    publication_year := orEmptyNat ub.book.publication_year
    publisher := orEmptyStr ub.book.publisher
    page_count := orEmptyInt ub.book.page_count
    language := orEmptyStr ub.book.language
    genres := format_list_field ub.book.genres
    average_rating := orEmptyRat ub.book.average_rating
    ratings_count := orEmptyNat ub.book.ratings_count
    user_rating := orEmptyNat ub.user_rating
    reading_status := (match ub.reading_status with | some st => st.value | none => [])
    shelf_name := shelf.name
    is_builtin_shelf := if shelf.is_builtin then ("true").data else ("false").data
    has_review := if ub.review.isSome then ("true").data else ("false").data
    review_text_preview :=
      (match ub.review with | some rv => truncate_review rv.review_text 1000 | none => [])
    review_date :=
      (match ub.review with
       | some rv => (match rv.review_date with | some d => format_datetime (some d) | none => [])
       | none => [])
    likes_count :=
      (match ub.review with
       | some rv => (match rv.likes_count with | some n => natStr n | none => [])
       | none => [])
    date_added := format_datetime ub.date_added
    date_started :=
      (match ub.read_records.getLast? with
       | some r => format_datetime r.date_started
       | none => [])
    date_finished :=
      (match ub.read_records.getLast? with
       | some r => format_datetime r.date_finished
       | none => [])
    scraped_at := format_datetime (some lib.scraped_at)
    schema_version := lib.schema_version }

/-- The inner shelf loop of `library_to_csv_rows` for one relation.
Accessing `.value` on a `None` reading status raises `AttributeError`
(`Except.error`), aborting the whole export. -/
def rowsForBook (lib : LibraryM) (ub : UserBookM) : Except Unit (List CsvRow) :=
  ub.shelves.mapM (fun shelf =>
    match ub.reading_status with
    | none => .error ()
    | some _ => .ok (csvRowFor lib ub shelf))

/-- `src/parse/src/exporters/csv_exporter.py::library_to_csv_rows`: one
row per (relation, shelf) pair. -/
def library_to_csv_rows (lib : LibraryM) : Except Unit (List CsvRow) :=
  match lib.user_books.mapM (rowsForBook lib) with
  | .error e => .error e
  | .ok rowss => .ok rowss.flatten

/-- Erase the two shelf-dependent columns of a row (for stating that rows
of one relation agree on every other column). -/
def maskShelfCols (r : CsvRow) : CsvRow :=
  { r with shelf_name := [], is_builtin_shelf := [] }

/-- A concrete library (one relation, status `read`, two shelves) used to
exercise the CSV exporter. -/
def csvDemoLibrary : LibraryM :=
  { user_id := ("1").data
    username := ("u").data
    profile_url := ("https://www.goodreads.com/user/show/1").data
    user_books := [{ book := { goodreads_id := ("1").data
                               title := ("T").data
                               author := ("A").data
                               goodreads_url := ("https://www.goodreads.com").data }
                     reading_status := some RStatus.read
                     shelves := [{ name := ("read").data, is_builtin := true },
                                 { name := ("favorites").data }] }]
    scraped_at := { year := 2025, month := 1, day := 2 } }

/-- The same library with the relation's reading status dropped to `None`
(a value the `UserBookRelation` model allows). -/
def csvDemoLibraryNoStatus : LibraryM :=
  { csvDemoLibrary with
    user_books := [{ book := { goodreads_id := ("1").data
                               title := ("T").data
                               author := ("A").data
                               goodreads_url := ("https://www.goodreads.com").data }
                     reading_status := none
                     shelves := [{ name := ("read").data, is_builtin := true }] }] }

/-! ## Helper lemmas -/

theorem toNat_ofNat_valid (n : Nat) (h : n < 55296) : (Char.ofNat n).toNat = n := by
  rw [Char.ofNat, dif_pos (Or.inl h)]
  rfl

theorem toLower_toLower (c : Char) : c.toLower.toLower = c.toLower := by
  simp only [Char.toLower]
  by_cases h : c.toNat ≥ 65 ∧ c.toNat ≤ 90
  · rw [if_pos h, toNat_ofNat_valid (c.toNat + 32) (by omega), if_neg (by omega)]
  · rw [if_neg h, if_neg h]

theorem pyIsSpace_toLower (c : Char) : pyIsSpace c.toLower = pyIsSpace c := by
  simp only [Char.toLower]
  by_cases h : c.toNat ≥ 65 ∧ c.toNat ≤ 90
  · rw [if_pos h]
    simp only [pyIsSpace, toNat_ofNat_valid (c.toNat + 32) (by omega)]
    rw [decide_eq_decide]
    omega
  · rw [if_neg h]

theorem pyLower_idem (s : Str) : pyLower (pyLower s) = pyLower s := by
  simp only [pyLower, List.map_map]
  exact List.map_congr_left fun c _ => toLower_toLower c

theorem dropWhile_map_of_comm (f : Char → Char) (p : Char → Bool)
    (h : ∀ c, p (f c) = p c) : ∀ l : Str, (l.map f).dropWhile p = (l.dropWhile p).map f := by
  intro l
  induction l with
  | nil => rfl
  | cons c cs ih =>
    simp only [List.map_cons, List.dropWhile_cons, h c]
    by_cases hc : p c = true
    · simp [hc, ih]
    · simp [hc]

theorem pyStrip_lower_comm (s : Str) : pyStrip (pyLower s) = pyLower (pyStrip s) := by
  simp only [pyStrip, pyLower]
  rw [dropWhile_map_of_comm Char.toLower pyIsSpace pyIsSpace_toLower s, ← List.map_reverse,
    dropWhile_map_of_comm Char.toLower pyIsSpace pyIsSpace_toLower, ← List.map_reverse]

theorem pyStrip_eq_rdropWhile (s : Str) :
    pyStrip s = (s.dropWhile pyIsSpace).rdropWhile pyIsSpace := rfl

theorem pyStrip_idem (s : Str) : pyStrip (pyStrip s) = pyStrip s := by
  rw [pyStrip_eq_rdropWhile, pyStrip_eq_rdropWhile]
  have h1 : (((s.dropWhile pyIsSpace).rdropWhile pyIsSpace).dropWhile pyIsSpace) =
      (s.dropWhile pyIsSpace).rdropWhile pyIsSpace := by
    rcases h : (s.dropWhile pyIsSpace).rdropWhile pyIsSpace with _ | ⟨c, cs⟩
    · rfl
    · rw [List.dropWhile_eq_self_iff]
      intro hl
      have hpre : (s.dropWhile pyIsSpace).rdropWhile pyIsSpace <+: s.dropWhile pyIsSpace :=
        List.rdropWhile_prefix pyIsSpace (s.dropWhile pyIsSpace)
      rw [h] at hpre
      have hlen : 0 < (s.dropWhile pyIsSpace).length :=
        Nat.lt_of_lt_of_le (by simp) hpre.length_le
      have hc : c = (s.dropWhile pyIsSpace).get ⟨0, hlen⟩ := by
        have := hpre.getElem (n := 0) (by simp)
        simpa using this
      show ¬ pyIsSpace c = true
      rw [hc]
      exact List.dropWhile_get_zero_not pyIsSpace s hlen
  rw [h1, List.rdropWhile_idempotent]

theorem cleanGenre_length_le (g : Str) : (cleanGenre g).length ≤ 50 := by
  simp only [cleanGenre]
  exact List.length_take_le 50 _

theorem pyLower_cleanGenre (g : Str) : pyLower (cleanGenre g) = cleanGenre g := by
  have hidem := pyLower_idem (pyStrip g)
  simp only [pyLower] at hidem
  simp only [cleanGenre, pyLower, List.map_take, hidem]

theorem cleanGenre_fixed (g : Str) (h : (pyLower (pyStrip g)).length ≤ 50) :
    cleanGenre (cleanGenre g) = cleanGenre g := by
  have hg : cleanGenre g = pyLower (pyStrip g) := by
    simp only [cleanGenre]
    exact List.take_of_length_le h
  rw [hg]
  show (pyLower (pyStrip (pyLower (pyStrip g)))).take 50 = pyLower (pyStrip g)
  rw [pyStrip_lower_comm, pyStrip_idem, pyLower_idem]
  exact List.take_of_length_le h

theorem genresGo_sound : ∀ (l acc : List Str), ∀ e ∈ normalizeGenresGo l acc,
    e ∈ acc ∨ ∃ g ∈ l, e = cleanGenre g ∧ e ≠ [] := by
  intro l
  induction l with
  | nil =>
    intro acc e he
    simp only [normalizeGenresGo, List.mem_reverse] at he
    exact Or.inl he
  | cons g rest ih =>
    intro acc e he
    simp only [normalizeGenresGo] at he
    split at he
    · rcases ih (cleanGenre g :: acc) e he with hacc | ⟨g2, hg2, hcl⟩
      · rcases List.mem_cons.mp hacc with hge | hacc2
        · rename_i hguard
          exact Or.inr ⟨g, List.mem_cons_self g rest, hge, hge ▸ hguard.1⟩
        · exact Or.inl hacc2
      · exact Or.inr ⟨g2, List.mem_cons_of_mem g hg2, hcl⟩
    · rcases ih acc e he with hacc | ⟨g2, hg2, hcl⟩
      · exact Or.inl hacc
      · exact Or.inr ⟨g2, List.mem_cons_of_mem g hg2, hcl⟩

theorem genresGo_nodup : ∀ (l acc : List Str), acc.Nodup →
    (normalizeGenresGo l acc).Nodup := by
  intro l
  induction l with
  | nil =>
    intro acc hacc
    simpa [normalizeGenresGo] using hacc
  | cons g rest ih =>
    intro acc hacc
    simp only [normalizeGenresGo]
    split
    · rename_i hguard
      exact ih (cleanGenre g :: acc) (List.nodup_cons.mpr ⟨hguard.2, hacc⟩)
    · exact ih acc hacc

theorem genresGo_length : ∀ (l acc : List Str),
    (normalizeGenresGo l acc).length ≤ acc.length + l.length := by
  intro l
  induction l with
  | nil =>
    intro acc
    simp [normalizeGenresGo]
  | cons g rest ih =>
    intro acc
    simp only [normalizeGenresGo]
    split
    · have := ih (cleanGenre g :: acc)
      simp only [List.length_cons] at this ⊢
      omega
    · have := ih acc
      simp only [List.length_cons]
      omega

theorem genresGo_fixpoint : ∀ (l acc : List Str),
    (∀ e ∈ l, cleanGenre e = e ∧ e ≠ []) → l.Nodup → (∀ e ∈ l, e ∉ acc) →
    normalizeGenresGo l acc = acc.reverse ++ l := by
  intro l
  induction l with
  | nil =>
    intro acc _ _ _
    simp [normalizeGenresGo]
  | cons g rest ih =>
    intro acc hfix hnd hdisj
    have hg := hfix g (List.mem_cons_self g rest)
    simp only [normalizeGenresGo]
    rw [if_pos ⟨hg.1.symm ▸ hg.2, fun hmem => hdisj g (List.mem_cons_self g rest) (hg.1 ▸ hmem)⟩]
    rw [hg.1]
    rw [ih (g :: acc) (fun e he => hfix e (List.mem_cons_of_mem g he))
      (List.nodup_cons.mp hnd).2
      (fun e he => by
        intro hmem
        rcases List.mem_cons.mp hmem with heq | hmem2
        · exact (List.nodup_cons.mp hnd).1 (heq ▸ he)
        · exact hdisj e (List.mem_cons_of_mem g he) hmem2)]
    simp

theorem normalize_genres_entries : ∀ genres : List Str, ∀ e ∈ normalize_genres genres,
    ∃ g ∈ genres, e = cleanGenre g ∧ e ≠ [] := by
  intro genres e he
  by_cases hg : genres = []
  · subst hg
    simp [normalize_genres] at he
  · simp only [normalize_genres, if_neg hg] at he
    rcases genresGo_sound (genres.take 50) [] e he with hacc | ⟨g, hgmem, hcl⟩
    · simp at hacc
    · exact ⟨g, List.mem_of_mem_take hgmem, hcl⟩

theorem normalize_genres_nodup (genres : List Str) : (normalize_genres genres).Nodup := by
  by_cases hg : genres = []
  · subst hg
    simp [normalize_genres]
  · simp only [normalize_genres, if_neg hg]
    exact genresGo_nodup _ [] List.nodup_nil

theorem normalize_genres_length (genres : List Str) :
    (normalize_genres genres).length ≤ 50 := by
  by_cases hg : genres = []
  · subst hg
    simp [normalize_genres]
  · simp only [normalize_genres, if_neg hg]
    have h1 := genresGo_length (genres.take 50) []
    have h2 : (genres.take 50).length ≤ 50 := List.length_take_le 50 genres
    simp only [List.length_nil] at h1
    omega

/-- CLAIM C6 (corrected at the idempotence conjunct): the output of genre
normalization has no case-insensitive duplicates, every entry has at most
50 characters and the list has at most 100 entries (indeed at most 50);
idempotence `normalize (normalize gs) = normalize gs` holds whenever each
entry's trimmed lowercased form has at most 50 characters (so no entry is
truncated), but fails in general — truncating at 50 characters can
expose trailing whitespace that a second pass strips (see the
counterexample). -/
theorem C6_genre_normalization :
    (∀ genres : List Str,
      ((normalize_genres genres).map pyLower).Nodup ∧
      (∀ e ∈ normalize_genres genres, e.length ≤ 50) ∧
      (normalize_genres genres).length ≤ 100) ∧
    (∀ genres : List Str, (∀ g ∈ genres, (pyLower (pyStrip g)).length ≤ 50) →
      normalize_genres (normalize_genres genres) = normalize_genres genres) := by
  constructor
  · intro genres
    have hmap : (normalize_genres genres).map pyLower = normalize_genres genres := by
      conv_rhs => rw [← List.map_id (normalize_genres genres)]
      apply List.map_congr_left
      intro e he
      rcases normalize_genres_entries genres e he with ⟨g, _, hcl, _⟩
      rw [hcl, id_eq]
      exact pyLower_cleanGenre g
    refine ⟨by rw [hmap]; exact normalize_genres_nodup genres, ?_, ?_⟩
    · intro e he
      rcases normalize_genres_entries genres e he with ⟨g, _, hcl, _⟩
      rw [hcl]
      exact cleanGenre_length_le g
    · exact Nat.le_trans (normalize_genres_length genres) (by omega)
  · intro genres hlen
    by_cases hg : genres = []
    · subst hg
      simp [normalize_genres]
    · have hentries : ∀ e ∈ normalize_genres genres, cleanGenre e = e ∧ e ≠ [] := by
        intro e he
        rcases normalize_genres_entries genres e he with ⟨g, hgmem, hcl, hne⟩
        refine ⟨?_, hne⟩
        rw [hcl]
        exact cleanGenre_fixed g (hlen g hgmem)
      by_cases hout : normalize_genres genres = []
      · rw [hout]
        simp [normalize_genres]
      · have hlen50 : (normalize_genres genres).length ≤ 50 := normalize_genres_length genres
        rw [normalize_genres, if_neg hout, List.take_of_length_le hlen50,
          genresGo_fixpoint (normalize_genres genres) [] hentries
            (normalize_genres_nodup genres) (by simp)]
        simp

/-- Witness for C6: the hypothesis of the idempotence conjunct holds at a
concrete input, and the theorem evaluates there. -/
theorem C6_genre_normalization_witness :
    normalize_genres (normalize_genres [("Fiction").data, ("MYSTERY ").data]) =
      normalize_genres [("Fiction").data, ("MYSTERY ").data] :=
  C6_genre_normalization.2 [("Fiction").data, ("MYSTERY ").data] (by decide)

/-- Counterexample for C6 as stated: for the single 51-character entry of
49 `a`s, a space and a `b`, truncation to 50 characters leaves a trailing
space, so a second normalization pass differs from the first. -/
theorem C6_counterexample :
    normalize_genres (normalize_genres [List.replicate 49 'a' ++ [' ', 'b']]) ≠
      normalize_genres [List.replicate 49 'a' ++ [' ', 'b']] := by decide

/-- CLAIM C9 (code_bug): `validate_isbn` accepts the hyphenated ISBN-13
`978-0-525-47881-2` (13 digits after removing separators) but returns the
ORIGINAL string with its hyphens retained — contradicting the function's
own docstring (`Returns: Normalized ISBN (digits only)`, example
`validate_isbn("978-0525478812") == '9780525478812'`) and the repository
unit test `test_validate_isbn_with_hyphens`, which asserts `"-" not in
validate_isbn("978-0-525-47881-2")`. -/
theorem C9_isbn_not_stripped :
    validate_isbn (some (("978-0-525-47881-2").data)) =
      some (("978-0-525-47881-2").data) ∧
    '-' ∈ (("978-0-525-47881-2").data) := by decide

theorem intercalate_one (sep : Str) (x : Str) : List.intercalate sep [x] = x := by
  simp [List.intercalate]

/-- CLAIM C8 (amended): in `build_library_url` the page parameter appears
only when `page > 1`, and a non-default shelf appears as `shelf=<slug>`;
but the DEFAULT shelf `all` is also emitted explicitly as `shelf=all`
(only an empty shelf value yields no shelf parameter, and this builder
has no sort parameter at all), so the URL built for page 1 of any
nonempty shelf — the default included — carries `?shelf=<slug>`, and
only an empty shelf value with page 1 yields a bare URL. -/
theorem C8_build_url :
    (∀ purl page shelf, containsSub (("/user/show/").data) purl = true →
      shelf ≠ [] → page ≤ 1 →
      build_library_url purl page shelf =
        .ok ((("https://www.goodreads.com/review/list/").data) ++ extract_user_id purl ++
          '?' :: (("shelf=").data) ++ shelf)) ∧
    (∀ purl page, containsSub (("/user/show/").data) purl = true → page ≤ 1 →
      build_library_url purl page [] =
        .ok ((("https://www.goodreads.com/review/list/").data) ++ extract_user_id purl)) ∧
    (∀ purl page, containsSub (("/user/show/").data) purl = true → page > 1 →
      build_library_url purl page [] =
        .ok ((("https://www.goodreads.com/review/list/").data) ++ extract_user_id purl ++
          '?' :: (("page=").data) ++ natStr page)) := by
  have hpneg : ∀ page : Nat, page ≤ 1 → ¬ page > 1 := by omega
  refine ⟨?_, ?_, ?_⟩
  · intro purl page shelf hc hsh hpage
    by_cases hall : shelf = ("all").data
    · subst hall
      simp [build_library_url, hc, hpneg page hpage, intercalate_one]
    · simp [build_library_url, hc, hpneg page hpage, hsh, hall, intercalate_one]
  · intro purl page hc hpage
    simp [build_library_url, hc, hpneg page hpage]
  · intro purl page hc hpage
    simp [build_library_url, hc, hpage, intercalate_one]

/-- Witness for C8: the three conjuncts applied at concrete inputs. -/
theorem C8_build_url_witness :
    build_library_url (("https://www.goodreads.com/user/show/12345").data) 1 (("all").data) =
      .ok ((("https://www.goodreads.com/review/list/").data) ++
        extract_user_id (("https://www.goodreads.com/user/show/12345").data) ++
        '?' :: (("shelf=").data) ++ ("all").data) ∧
    build_library_url (("https://www.goodreads.com/user/show/12345").data) 1 [] =
      .ok ((("https://www.goodreads.com/review/list/").data) ++
        extract_user_id (("https://www.goodreads.com/user/show/12345").data)) ∧
    build_library_url (("https://www.goodreads.com/user/show/12345").data) 3 [] =
      .ok ((("https://www.goodreads.com/review/list/").data) ++
        extract_user_id (("https://www.goodreads.com/user/show/12345").data) ++
        '?' :: (("page=").data) ++ natStr 3) :=
  ⟨C8_build_url.1 (("https://www.goodreads.com/user/show/12345").data) 1 (("all").data)
      (by decide) (by decide) (by decide),
   C8_build_url.2.1 (("https://www.goodreads.com/user/show/12345").data) 1 (by decide) (by decide),
   C8_build_url.2.2 (("https://www.goodreads.com/user/show/12345").data) 3 (by decide) (by decide)⟩

/-- Counterexample for C8 as stated: the URL built for page 1 of the
default shelf `all` carries the query parameter `shelf=all` instead of no
query parameters. -/
theorem C8_counterexample :
    build_library_url (("https://www.goodreads.com/user/show/12345").data) 1 (("all").data) =
      .ok (("https://www.goodreads.com/review/list/12345?shelf=all").data) ∧
    '?' ∈ (("https://www.goodreads.com/review/list/12345?shelf=all").data) := by decide

/-- Counterexample for C5 as stated: a profile URL padded with a leading
space does not match the canonical grammar (the raw regex rejects it),
yet `validate` strips the input first and returns `is_valid=true` with
the extracted id — so a string outside the grammar does not get
`(false, null)`. -/
theorem C5_counterexample :
    matchProfile ((" https://www.goodreads.com/user/show/1").data) = none ∧
    validate_goodreads_profile_url ((" https://www.goodreads.com/user/show/1").data) =
      (true, ("https://www.goodreads.com/user/show/1").data, some (("1").data)) := by decide

theorem fetchGo_retryable (attempts : Nat → AttemptResult) (maxRetries : Nat) :
    ∀ rem attempt sleeps used,
    attempt + rem = maxRetries → 1 ≤ rem →
    (∀ i, i < maxRetries → retryable (attempts i)) →
    fetchGo attempts maxRetries rem attempt sleeps used =
      (.error .network, sleeps ++ (List.range' attempt (rem - 1)).map (fun a => 2 ^ a),
        used + rem) := by
  intro rem
  induction rem with
  | zero => omega
  | succ r ih =>
    intro attempt sleeps used hsum hone hall
    have hlt : attempt < maxRetries := by omega
    have hretry := hall attempt hlt
    have hrange : ∀ hr : r ≠ 0,
        List.range' attempt (r + 1 - 1) = attempt :: List.range' (attempt + 1) (r - 1) := by
      intro hr
      have h2 : r + 1 - 1 = (r - 1) + 1 := by omega
      rw [h2, List.range'_succ]
    rcases hatt : attempts attempt with ⟨status, body⟩ | _ | _ <;> rw [hatt] at hretry
    · simp only [retryable] at hretry
      simp only [fetchGo, if_pos hlt, hatt]
      rw [if_neg (by omega), if_neg (by omega), if_neg (by omega), if_pos hretry]
      by_cases hr : r = 0
      · subst hr
        rw [if_neg (by omega)]
        simp
      · rw [if_pos (by omega), ih (attempt + 1) (sleeps ++ [2 ^ attempt]) (used + 1)
          (by omega) (by omega) hall, hrange hr]
        simp only [List.map_cons, List.append_assoc, List.singleton_append]
        have huse : used + 1 + r = used + (r + 1) := by omega
        rw [huse]
    · simp only [fetchGo, if_pos hlt, hatt]
      by_cases hr : r = 0
      · subst hr
        rw [if_neg (by omega)]
        simp
      · rw [if_pos (by omega), ih (attempt + 1) (sleeps ++ [2 ^ attempt]) (used + 1)
          (by omega) (by omega) hall, hrange hr]
        simp only [List.map_cons, List.append_assoc, List.singleton_append]
        have huse : used + 1 + r = used + (r + 1) := by omega
        rw [huse]
    · simp only [fetchGo, if_pos hlt, hatt]
      by_cases hr : r = 0
      · subst hr
        rw [if_neg (by omega)]
        simp
      · rw [if_pos (by omega), ih (attempt + 1) (sleeps ++ [2 ^ attempt]) (used + 1)
          (by omega) (by omega) hall, hrange hr]
        simp only [List.map_cons, List.append_assoc, List.singleton_append]
        have huse : used + 1 + r = used + (r + 1) := by omega
        rw [huse]

/-- CLAIM C4 (confirmed): for every fetch through `_fetch_with_retry`
with at least one allowed attempt: (1) when every attempt fails with a
connection/timeout error or a 5xx response, the request is attempted
`max_retries` times (default 3) with backoff sleeps of `2 ^ attempt`
seconds between attempts, and the exhausted loop raises a terminal
`NetworkError`; (2) a 404 response raises a terminal `InvalidURLError`
("profile not found") on the first attempt, with no retry and no sleep;
(3) a 429 response raises a terminal `RateLimitError` with no retry;
(4) any other 4xx response raises a terminal generic `NetworkError` with
no retry. -/
theorem C4_fetch_retry_classification :
    ∀ (attempts : Nat → AttemptResult) (maxRetries : Nat), 1 ≤ maxRetries →
      ((∀ i, i < maxRetries → retryable (attempts i)) →
        fetch_with_retry attempts maxRetries =
          (.error .network, (List.range (maxRetries - 1)).map (fun a => 2 ^ a), maxRetries)) ∧
      (∀ body, attempts 0 = .response 404 body →
        fetch_with_retry attempts maxRetries = (.error .invalidURL, [], 1)) ∧
      (∀ body, attempts 0 = .response 429 body →
        fetch_with_retry attempts maxRetries = (.error .rateLimited, [], 1)) ∧
      (∀ status body, attempts 0 = .response status body → 400 ≤ status → status < 500 →
        status ≠ 404 → status ≠ 429 →
        fetch_with_retry attempts maxRetries = (.error .network, [], 1)) := by
  intro attempts maxRetries hmr
  obtain ⟨m, rfl⟩ : ∃ m, maxRetries = m + 1 := ⟨maxRetries - 1, by omega⟩
  refine ⟨?_, ?_, ?_, ?_⟩
  · intro hall
    rw [fetch_with_retry,
      fetchGo_retryable attempts (m + 1) (m + 1) 0 [] 0 (by omega) (by omega) hall,
      List.range_eq_range']
    simp
  · intro body h0
    rw [fetch_with_retry]
    simp only [fetchGo, if_pos (by omega : 0 < m + 1), h0]
    simp
  · intro body h0
    rw [fetch_with_retry]
    simp only [fetchGo, if_pos (by omega : 0 < m + 1), h0]
    simp
  · intro status body h0 h400 h500 h404 h429
    rw [fetch_with_retry]
    have hnlt : ¬ status < 400 := by omega
    have hn5 : ¬ 500 ≤ status := by omega
    simp only [fetchGo, if_pos (by omega : 0 < m + 1), h0]
    simp [h429, h404, hnlt, hn5]

/-- Witness for C4: the theorem applied at `max_retries = 3` (the
default) with concrete attempt outcomes: persistent connection errors
give three attempts with sleeps 1 and 2 seconds and a terminal network
error; a 404, a 429 and a 403 on the first attempt give the three
terminal classifications with one attempt and no sleep. -/
theorem C4_fetch_retry_classification_witness :
    fetch_with_retry (fun _ => .connEx) 3 =
      (.error .network, [1, 2], 3) ∧
    fetch_with_retry (fun _ => .response 404 []) 3 = (.error .invalidURL, [], 1) ∧
    fetch_with_retry (fun _ => .response 429 []) 3 = (.error .rateLimited, [], 1) ∧
    fetch_with_retry (fun _ => .response 403 []) 3 = (.error .network, [], 1) :=
  ⟨by
    have h := (C4_fetch_retry_classification (fun _ => .connEx) 3 (by omega)).1
      (fun i _ => by simp [retryable])
    simpa using h,
   (C4_fetch_retry_classification (fun _ => .response 404 []) 3 (by omega)).2.1 [] rfl,
   (C4_fetch_retry_classification (fun _ => .response 429 []) 3 (by omega)).2.2.1 [] rfl,
   (C4_fetch_retry_classification (fun _ => .response 403 []) 3 (by omega)).2.2.2 403 [] rfl
     (by omega) (by omega) (by omega) (by omega)⟩

theorem rowStepTitle_title (tc : Option (Option (Str × Str))) (d : RowData) :
    (rowStepTitle tc d).title =
      (match tc with
       | some (some p) => some (sanitize_text (some p.2) none)
       | _ => d.title) := by
  rcases tc with _ | ⟨_ | p⟩ <;> simp [rowStepTitle]

theorem rowStepTitle_author (tc : Option (Option (Str × Str))) (d : RowData) :
    (rowStepTitle tc d).author = d.author := by
  rcases tc with _ | ⟨_ | p⟩ <;> simp [rowStepTitle, apply_ite]

theorem rowStepAuthor_title (ac : Option (Option Str)) (d : RowData) :
    (rowStepAuthor ac d).title = d.title := by
  rcases ac with _ | ⟨_ | t⟩ <;> simp [rowStepAuthor]

theorem rowStepAuthor_author (ac : Option (Option Str)) (d : RowData) :
    (rowStepAuthor ac d).author =
      (match ac with
       | some (some t) => some (sanitize_text (some t) none)
       | _ => d.author) := by
  rcases ac with _ | ⟨_ | t⟩ <;> simp [rowStepAuthor]

theorem rowStepRating_title (rc : Option (Option (Str × Str))) (d : RowData) :
    (rowStepRating rc d).title = d.title := by
  rcases rc with _ | s <;> simp [rowStepRating]

theorem rowStepRating_author (rc : Option (Option (Str × Str))) (d : RowData) :
    (rowStepRating rc d).author = d.author := by
  rcases rc with _ | s <;> simp [rowStepRating]

theorem rowStepActions_title (acc : Option (Option Str)) (d : RowData) :
    (rowStepActions acc d).title = d.title := by
  rcases acc with _ | ⟨_ | h⟩ <;> simp [rowStepActions, apply_ite]

theorem rowStepActions_author (acc : Option (Option Str)) (d : RowData) :
    (rowStepActions acc d).author = d.author := by
  rcases acc with _ | ⟨_ | h⟩ <;> simp [rowStepActions, apply_ite]

theorem rowStepShelf_title (sc : Option (List (Str × Str))) (d : RowData) :
    (rowStepShelf sc d).title = d.title := by
  rcases sc with _ | l <;> simp [rowStepShelf]

theorem rowStepShelf_author (sc : Option (List (Str × Str))) (d : RowData) :
    (rowStepShelf sc d).author = d.author := by
  rcases sc with _ | l <;> simp [rowStepShelf]

theorem rowStepDate_title (dc : Option (Option PyDateTime)) (d : RowData) :
    (rowStepDate dc d).title = d.title := by
  rcases dc with _ | p <;> simp [rowStepDate]

theorem rowStepDate_author (dc : Option (Option PyDateTime)) (d : RowData) :
    (rowStepDate dc d).author = d.author := by
  rcases dc with _ | p <;> simp [rowStepDate]

theorem buildRowDict_title (r : RowCells) :
    (buildRowDict r).title =
      (match r.titleCell with
       | some (some p) => some (sanitize_text (some p.2) none)
       | _ => none) := by
  rw [buildRowDict, rowStepDate_title, rowStepShelf_title, rowStepActions_title,
    rowStepRating_title, rowStepAuthor_title, rowStepTitle_title]

theorem buildRowDict_author (r : RowCells) :
    (buildRowDict r).author =
      (match r.authorCell with
       | some (some t) => some (sanitize_text (some t) none)
       | _ => none) := by
  rw [buildRowDict, rowStepDate_author, rowStepShelf_author, rowStepActions_author,
    rowStepRating_author, rowStepAuthor_author]
  rcases r.authorCell with _ | ⟨_ | t⟩ <;> simp [rowStepTitle_author]

/-- CLAIM C7 (amended): the listing-row extractor is a total function —
a row whose parsing raises (`Except.error`, from the HTML library) is
skipped without aborting the page and without affecting the other rows
(`extract_books_from_table` is exactly a `filterMap`); every included row
has its `title` and `author` KEYS set; but inclusion tests key presence,
not values: a row is included precisely when its title cell has a link
and its author cell has a link, even when the sanitized link text is
empty so the stored title or author VALUE is null (such a row is only
dropped later, at model conversion).  There is no distinguished error for
an excluded row. -/
theorem C7_extractor_tolerance :
    (∀ rows, extract_books_from_table rows =
      rows.filterMap (fun r => match r with | .error _ => none | .ok c => parse_book_row c)) ∧
    (∀ r d, parse_book_row r = some d → d.title.isSome ∧ d.author.isSome) ∧
    (∀ r : RowCells, (parse_book_row r).isSome ↔
      ((∃ p, r.titleCell = some (some p)) ∧ (∃ t, r.authorCell = some (some t)))) := by
  refine ⟨?_, ?_, ?_⟩
  · intro rows
    induction rows with
    | nil => rfl
    | cons row rest ih =>
      rcases row with e | c
      · simp [extract_books_from_table, ih]
      · rcases h : parse_book_row c with _ | d <;>
          simp [extract_books_from_table, h, ih]
  · intro r d h
    simp only [parse_book_row] at h
    by_cases hc : ((buildRowDict r).title.isSome && (buildRowDict r).author.isSome) = true
    · rw [if_pos hc] at h
      obtain ⟨h1, h2⟩ := Bool.and_eq_true_iff.mp hc
      cases h
      exact ⟨h1, h2⟩
    · rw [if_neg hc] at h
      cases h
  · intro r
    simp only [parse_book_row]
    by_cases hc : ((buildRowDict r).title.isSome && (buildRowDict r).author.isSome) = true
    · rw [if_pos hc]
      obtain ⟨h1, h2⟩ := Bool.and_eq_true_iff.mp hc
      rw [buildRowDict_title] at h1
      rw [buildRowDict_author] at h2
      simp only [Option.isSome_some, true_iff]
      constructor
      · rcases htc : r.titleCell with _ | ⟨_ | p⟩ <;> rw [htc] at h1 <;> simp_all
      · rcases hac : r.authorCell with _ | ⟨_ | t⟩ <;> rw [hac] at h2 <;> simp_all
    · rw [if_neg hc]
      simp only [Option.isSome_none, Bool.false_eq_true, false_iff]
      intro ⟨⟨p, hp⟩, ⟨t, ht⟩⟩
      apply hc
      rw [Bool.and_eq_true_iff, buildRowDict_title, buildRowDict_author, hp, ht]
      simp

/-- Witness for C7: the implication conjuncts applied at a concrete row
with both cells present. -/
theorem C7_extractor_tolerance_witness :
    (parse_book_row
        { titleCell := some (some ((("/book/show/1").data), ("T").data))
          authorCell := some (some (("A").data)) } =
      some (buildRowDict
        { titleCell := some (some ((("/book/show/1").data), ("T").data))
          authorCell := some (some (("A").data)) })) ∧
    ((buildRowDict
        { titleCell := some (some ((("/book/show/1").data), ("T").data))
          authorCell := some (some (("A").data)) }).title.isSome ∧
      (buildRowDict
        { titleCell := some (some ((("/book/show/1").data), ("T").data))
          authorCell := some (some (("A").data)) }).author.isSome) :=
  ⟨by decide,
   C7_extractor_tolerance.2.1
     { titleCell := some (some ((("/book/show/1").data), ("T").data))
       authorCell := some (some (("A").data)) }
     (buildRowDict
       { titleCell := some (some ((("/book/show/1").data), ("T").data))
         authorCell := some (some (("A").data)) })
     (by decide)⟩

/-- Counterexample for C7 as stated: a row whose title link has
whitespace-only text (sanitized to a null title) is still included in the
result list — `'title' in book_data` tests key presence — so a row
lacking a title value is not excluded. -/
theorem C7_counterexample :
    (parse_book_row
        { titleCell := some (some ((("/book/show/1").data), []))
          authorCell := some (some (("A").data)) }).map (fun d => (d.title, d.author)) =
      some (some none, some (some (("A").data))) := by decide

theorem dedupLoop_spec (limit : Option Nat) :
    ∀ (books : List RowData) (seen : List Str) (cnt : Nat),
      ((dedupLoop limit books seen cnt).1.map (fun b => b.goodreads_id)).Nodup ∧
      (∀ b ∈ (dedupLoop limit books seen cnt).1,
        ∃ i, b.goodreads_id = some i ∧ i ∉ seen ∧ i ∈ (dedupLoop limit books seen cnt).2.1) ∧
      (∀ x ∈ seen, x ∈ (dedupLoop limit books seen cnt).2.1) := by
  intro books
  induction books with
  | nil =>
    intro seen cnt
    refine ⟨by simp [dedupLoop], by simp [dedupLoop], by simp [dedupLoop]⟩
  | cons b rest ih =>
    intro seen cnt
    rcases hid : b.goodreads_id with _ | bid
    · simpa only [dedupLoop, hid] using ih seen cnt
    · simp only [dedupLoop, hid]
      by_cases hcond : bid ≠ [] ∧ bid ∉ seen
      · rw [if_pos hcond]
        by_cases hlim : limitReached limit (cnt + 1) = true
        · rw [if_pos hlim]
          refine ⟨by simp, ?_, ?_⟩
          · intro b2 hb2
            rcases List.mem_singleton.mp hb2 with rfl
            exact ⟨bid, hid, hcond.2, List.mem_cons_self bid seen⟩
          · intro x hx
            exact List.mem_cons_of_mem bid hx
        · rw [if_neg hlim]
          obtain ⟨ihn, ihm, ihs⟩ := ih (bid :: seen) (cnt + 1)
          refine ⟨?_, ?_, ?_⟩
          · simp only [List.map_cons, List.nodup_cons]
            refine ⟨?_, ihn⟩
            intro hmem
            rcases List.mem_map.mp hmem with ⟨b2, hb2, hbid2⟩
            rcases ihm b2 hb2 with ⟨i, hi, hni, _⟩
            rw [hi] at hbid2
            rw [hid] at hbid2
            have : i = bid := by injection hbid2
            exact hni (this ▸ List.mem_cons_self bid seen)
          · intro b2 hb2
            rcases List.mem_cons.mp hb2 with rfl | hb2r
            · exact ⟨bid, hid, hcond.2, ihs bid (List.mem_cons_self bid seen)⟩
            · rcases ihm b2 hb2r with ⟨i, hi, hni, hmem⟩
              exact ⟨i, hi, fun hin => hni (List.mem_cons_of_mem bid hin), hmem⟩
          · intro x hx
            exact ihs x (List.mem_cons_of_mem bid hx)
      · rw [if_neg hcond]
        exact ih seen cnt

theorem crawlShelfLoop_inv (fetch : Str → Nat → Page) (slug : Str) (status : Option Str)
    (limit : Option Nat) :
    ∀ (fuel page cnt : Nat) (allBooks : List RowData) (seen : List Str),
      (allBooks.map (fun b => b.goodreads_id)).Nodup →
      (∀ b ∈ allBooks, ∃ i, b.goodreads_id = some i ∧ i ∈ seen) →
      (((crawlShelfLoop fetch slug status limit fuel page cnt allBooks seen).1.map
          (fun b => b.goodreads_id)).Nodup ∧
        (∀ b ∈ (crawlShelfLoop fetch slug status limit fuel page cnt allBooks seen).1,
          ∃ i, b.goodreads_id = some i ∧
            i ∈ (crawlShelfLoop fetch slug status limit fuel page cnt allBooks seen).2)) := by
  intro fuel
  induction fuel with
  | zero =>
    intro page cnt allBooks seen hnd hmem
    exact ⟨hnd, hmem⟩
  | succ f ih =>
    intro page cnt allBooks seen hnd hmem
    obtain ⟨dn, dm, ds⟩ :=
      dedupLoop_spec limit (tagStatus status (fetch slug page).books) seen cnt
    set r := dedupLoop limit (tagStatus status (fetch slug page).books) seen cnt with hr
    have hnd2 : ((allBooks ++ r.1).map (fun b => b.goodreads_id)).Nodup := by
      rw [List.map_append]
      apply List.Nodup.append hnd dn
      intro x hx1 hx2
      rcases List.mem_map.mp hx1 with ⟨b1, hb1, hid1⟩
      rcases List.mem_map.mp hx2 with ⟨b2, hb2, hid2⟩
      rcases hmem b1 hb1 with ⟨i1, hi1, hs1⟩
      rcases dm b2 hb2 with ⟨i2, hi2, hn2, _⟩
      rw [hi1] at hid1
      rw [hi2] at hid2
      rw [← hid1] at hid2
      have : i2 = i1 := by injection hid2
      exact hn2 (this ▸ hs1)
    have hmem2 : ∀ b ∈ allBooks ++ r.1, ∃ i, b.goodreads_id = some i ∧ i ∈ r.2.1 := by
      intro b hb
      rcases List.mem_append.mp hb with hb1 | hb2
      · rcases hmem b hb1 with ⟨i, hi, hs⟩
        exact ⟨i, hi, ds i hs⟩
      · rcases dm b hb2 with ⟨i, hi, _, hs⟩
        exact ⟨i, hi, hs⟩
    simp only [crawlShelfLoop, ← hr]
    by_cases hlim : limitReached limit r.2.2 = true
    · rw [if_pos hlim]
      exact ⟨hnd2, hmem2⟩
    · rw [if_neg hlim]
      by_cases hnext : (fetch slug page).has_next_page = true
      · rw [if_neg (by simp [hnext])]
        exact ih (page + 1) r.2.2 (allBooks ++ r.1) r.2.1 hnd2 hmem2
      · rw [if_pos (by simp [hnext])]
        exact ⟨hnd2, hmem2⟩

theorem crawlShelvesGo_inv (fetch : Str → Nat → Page) (limit : Option Nat) (fuel : Nat) :
    ∀ (shelves : List (Str × Nat)) (allBooks : List RowData) (seen : List Str),
      (allBooks.map (fun b => b.goodreads_id)).Nodup →
      (∀ b ∈ allBooks, ∃ i, b.goodreads_id = some i ∧ i ∈ seen) →
      ((crawlShelvesGo fetch limit fuel shelves allBooks seen).map
        (fun b => b.goodreads_id)).Nodup := by
  intro shelves
  induction shelves with
  | nil =>
    intro allBooks seen hnd _
    exact hnd
  | cons sh rest ih =>
    intro allBooks seen hnd hmem
    obtain ⟨h1, h2⟩ := crawlShelfLoop_inv fetch sh.1 (mapShelfToReadingStatus sh.1) limit
      fuel 1 0 allBooks seen hnd hmem
    exact ih _ _ h1 h2

/-- CLAIM C3 (confirmed): cross-shelf deduplication is keyed by item id
with first-seen wins — the accumulated list of the whole crawl never
contains two entries with the same item id (for any fetcher, shelf plan
and limit), and in the concrete two-shelf scenario (the same id listed
under `to-read`, crawled first, and under `read`) the accumulated list is
exactly one entry carrying the first shelf's reading status and the first
shelf's row data. -/
theorem C3_cross_shelf_dedup :
    (∀ (fetch : Str → Nat → Page) (shelves : List (Str × Nat)) (limit : Option Nat)
      (fuel : Nat),
      ((crawlShelves fetch shelves limit fuel).map (fun b => b.goodreads_id)).Nodup) ∧
    (crawlShelves
        (fun slug _ =>
          if slug = ("to-read").data then
            { books := [{ goodreads_id := some (("1").data)
                          title := some (some (("T").data))
                          author := some (some (("A").data)) }] }
          else
            { books := [{ goodreads_id := some (("1").data)
                          title := some (some (("T2").data))
                          author := some (some (("A2").data)) }] })
        [((("to-read").data), 1), ((("read").data), 1)] none 5).map
          (fun b => (b.goodreads_id, b.reading_status, b.title)) =
      [(some (("1").data), some (("to-read").data), some (some (("T").data)))] := by
  constructor
  · intro fetch shelves limit fuel
    exact crawlShelvesGo_inv fetch limit fuel shelves [] [] (by simp) (by simp)
  · decide

theorem mkBook_ok_url (gid : Str) (t a : Option Str) (url : Str)
    (i1 i2 pd pub lang st : Option Str) (py : Option Nat) (pc : Option Int)
    (law : List (Str × Option Str × Option Nat)) (gen : List Str) (ar : Option Rat)
    (rc : Option Nat) (cov : Option Str) (b : BookM)
    (h : mkBook gid t a url i1 i2 pd pub lang st py pc law gen ar rc cov = .ok b) :
    b.goodreads_url = pyStrip url := by
  rw [mkBook.eq_def] at h
  rcases hm : mkBookErr gid t a url i1 i2 pd pub lang st py pc law gen ar rc cov with _ | e
  · rw [hm] at h
    cases h
    rfl
  · rw [hm] at h
    exact Except.noConfusion h

theorem mkBook_placeholder_not_badUrl (gid : Str) (t a : Option Str)
    (i1 i2 pd pub lang st : Option Str) (py : Option Nat) (pc : Option Int)
    (law : List (Str × Option Str × Option Nat)) (gen : List Str) (ar : Option Rat)
    (rc : Option Nat) (cov : Option Str) :
    mkBook gid t a (("https://www.goodreads.com").data) i1 i2 pd pub lang st py pc law
      gen ar rc cov ≠ .error .badUrl := by
  have hurl : isHttpUrl (pyStrip (("https://www.goodreads.com").data)) = true := by decide
  intro h
  rw [mkBook.eq_def] at h
  rcases hm : mkBookErr gid t a (("https://www.goodreads.com").data) i1 i2 pd pub lang st
      py pc law gen ar rc cov with _ | e
  · rw [hm] at h
    exact Except.noConfusion h
  · rw [hm] at h
    injection h with h2
    subst h2
    simp only [mkBookErr, Option.map_eq_some'] at hm
    rcases hm with ⟨c, hfind, hc2⟩
    have hcmem := List.mem_of_find?_eq_some hfind
    have hctrue := List.find?_some hfind
    simp only [List.mem_cons, List.not_mem_nil, or_false] at hcmem
    rcases hcmem with h1|h1|h1|h1|h1|h1|h1|h1|h1|h1|h1|h1|h1|h1|h1 <;> subst h1 <;>
      simp_all

/-- CLAIM C10 (confirmed): in `_convert_to_models`, a row dictionary
with no `goodreads_url` key never fails `Book` construction on the
required canonical-URL field — the placeholder
`https://www.goodreads.com` is substituted, every successfully built
book for such a row carries the placeholder, and a minimal row (id,
title, author, no detail-page URL) is converted into the output rather
than dropped. -/
theorem C10_placeholder_url :
    (∀ raw : RowData, raw.goodreads_url = none →
      rawBookModel raw ≠ .error .badUrl) ∧
    (∀ (raw : RowData) (b : BookM), raw.goodreads_url = none →
      rawBookModel raw = .ok b →
      b.goodreads_url = ("https://www.goodreads.com").data) ∧
    ((convert_to_models [{ goodreads_id := some (("1").data)
                           title := some (some (("T").data))
                           author := some (some (("A").data)) }]).map
        (fun ub => ub.book.goodreads_url) =
      [("https://www.goodreads.com").data]) := by
  refine ⟨?_, ?_, by decide⟩
  · intro raw hnone
    simp only [rawBookModel, hnone]
    exact mkBook_placeholder_not_badUrl _ _ _ _ _ _ _ _ _ _ _ _ _ _ _ _
  · intro raw b hnone hok
    simp only [rawBookModel, hnone] at hok
    have := mkBook_ok_url _ _ _ _ _ _ _ _ _ _ _ _ _ _ _ _ _ b hok
    rw [this]
    decide

/-- Witness for C10: the two implication conjuncts applied to the
concrete minimal row with no detail-page URL. -/
theorem C10_placeholder_url_witness :
    (rawBookModel { goodreads_id := some (("1").data)
                    title := some (some (("T").data))
                    author := some (some (("A").data)) } ≠ .error .badUrl) ∧
    (∀ b, rawBookModel { goodreads_id := some (("1").data)
                         title := some (some (("T").data))
                         author := some (some (("A").data)) } = .ok b →
      b.goodreads_url = ("https://www.goodreads.com").data) :=
  ⟨C10_placeholder_url.1
      { goodreads_id := some (("1").data)
        title := some (some (("T").data))
        author := some (some (("A").data)) } rfl,
   fun b hb => C10_placeholder_url.2.1
      { goodreads_id := some (("1").data)
        title := some (some (("T").data))
        author := some (some (("A").data)) } b rfl hb⟩

theorem mergeDetail_read_records (b : RowData) (dd : DetailData) :
    (mergeDetail b dd).read_records = b.read_records := rfl

theorem enrichReview_read_records (rp : ReviewPageResult) (b : RowData) :
    (enrichReview rp b).read_records = some
      (if (if truthyS b.reading_status = true then b.reading_status else rp.reading_status) =
          some (("read").data) then [((none : Option PyDateTime), none)] else []) := by
  rcases hpb : rp.publisher with _ | p
  · by_cases ht : truthyS b.reading_status = true <;> simp [enrichReview, hpb, ht]
  · by_cases hp0 : p = [] <;> by_cases ht : truthyS b.reading_status = true <;>
      simp [enrichReview, hpb, hp0, ht]

theorem enrichDetail_read_records (detailOf : Str → Option DetailData) (b : RowData) :
    (enrichDetail detailOf b).read_records = b.read_records := by
  rcases hg : b.goodreads_url with _ | g
  · simp [enrichDetail, hg]
  · by_cases hge : g = [] <;> rcases hd : detailOf g <;>
      simp [enrichDetail, hg, hge, hd, mergeDetail_read_records]

theorem enrichBook_read_records_synth (now : PyDateTime)
    (reviewOf : Str → Option ReviewPageResult) (detailOf : Str → Option DetailData)
    (b : RowData) (rurl : Str) (rp : ReviewPageResult)
    (hurl : b.review_url = some rurl) (hne : rurl ≠ [])
    (hrev : reviewOf rurl = some rp)
    (hfinal : (if truthyS b.reading_status = true then b.reading_status
        else rp.reading_status) = some (("read").data)) :
    (enrichBook now reviewOf detailOf b).read_records = some [(none, none)] := by
  simp only [enrichBook, hurl, hrev, if_pos hne, enrichDetail_read_records,
    enrichReview_read_records]
  have hfinal2 : (if truthyS b.reading_status = true then b.reading_status
      else rp.reading_status) = some ['r', 'e', 'a', 'd'] := hfinal
  rw [hfinal2]
  simp

theorem mapM_exceptOk {α β : Type} (g : α → Except Unit β) (f : α → β) :
    ∀ l : List α, (∀ a ∈ l, g a = .ok (f a)) → l.mapM g = .ok (l.map f) := by
  intro l
  induction l with
  | nil => intro _; rfl
  | cons a t ih =>
    intro h
    rw [List.mapM_cons, h a (List.mem_cons_self a t),
      ih (fun x hx => h x (List.mem_cons_of_mem a hx))]
    rfl

theorem rowsForBook_ok (lib : LibraryM) (ub : UserBookM) (st : RStatus)
    (h : ub.reading_status = some st) :
    rowsForBook lib ub = .ok (ub.shelves.map (csvRowFor lib ub)) := by
  unfold rowsForBook
  exact mapM_exceptOk _ _ ub.shelves (fun shelf _ => by rw [h])

theorem library_to_csv_rows_ok (lib : LibraryM)
    (h : ∀ ub ∈ lib.user_books, ub.reading_status.isSome) :
    library_to_csv_rows lib =
      .ok ((lib.user_books.map (fun ub => ub.shelves.map (csvRowFor lib ub))).flatten) := by
  have hm : lib.user_books.mapM (rowsForBook lib) =
      .ok (lib.user_books.map (fun ub => ub.shelves.map (csvRowFor lib ub))) := by
    refine mapM_exceptOk _ _ _ (fun ub hub => ?_)
    rcases ho : ub.reading_status with _ | st
    · exact absurd (h ub hub) (by simp [ho])
    · exact rowsForBook_ok lib ub st ho
  unfold library_to_csv_rows
  rw [hm]

theorem takeWhile_eq_self_of_all {p : Char → Bool} :
    ∀ l : Str, (∀ x ∈ l, p x = true) → l.takeWhile p = l := by
  intro l
  induction l with
  | nil => intro _; rfl
  | cons a t ih =>
    intro h
    simp [List.takeWhile_cons, h a (List.mem_cons_self a t),
      ih (fun x hx => h x (List.mem_cons_of_mem a hx))]

theorem takeWhile_append_all {p : Char → Bool} :
    ∀ l r : Str, (∀ x ∈ l, p x = true) → (l ++ r).takeWhile p = l ++ r.takeWhile p := by
  intro l r
  induction l with
  | nil => intro _; rfl
  | cons a t ih =>
    intro h
    simp [List.takeWhile_cons, h a (List.mem_cons_self a t),
      ih (fun x hx => h x (List.mem_cons_of_mem a hx))]

theorem dropWhile_eq_self_of_all {p : Char → Bool} (l : Str)
    (h : ∀ x ∈ l, p x = false) : l.dropWhile p = l := by
  cases l with
  | nil => rfl
  | cons a t => simp [List.dropWhile_cons, h a (List.mem_cons_self a t)]

theorem pyStrip_noop (s : Str) (h : ∀ x ∈ s, pyIsSpace x = false) : pyStrip s = s := by
  unfold pyStrip
  rw [dropWhile_eq_self_of_all s h,
    dropWhile_eq_self_of_all s.reverse (fun x hx => h x (List.mem_reverse.mp hx)),
    List.reverse_reverse]

theorem isAsciiDigit_not_space (x : Char) (h : isAsciiDigit x = true) : pyIsSpace x = false := by
  simp [isAsciiDigit] at h
  simp [pyIsSpace]
  omega

theorem isSlugChar_not_space (x : Char) (h : isSlugChar x = true) : pyIsSpace x = false := by
  simp [isSlugChar, isWordChar] at h
  rcases h with h | rfl
  · simp [pyIsSpace]
    omega
  · decide

theorem matchIdSlugQuery_nn (rPath id : Str)
    (hid : id ≠ []) (hall : ∀ x ∈ id, isAsciiDigit x = true) :
    matchIdSlugQuery rPath id =
      some { userId := id, path := rPath.take (11 + id.length + 0), query := none } := by
  simp only [matchIdSlugQuery, takeWhile_eq_self_of_all id hall, if_neg hid,
    List.drop_length]

theorem matchIdSlugQuery_nq (rPath id q : Str)
    (hid : id ≠ []) (hall : ∀ x ∈ id, isAsciiDigit x = true)
    (hq : '\n' ∉ q) :
    matchIdSlugQuery rPath (id ++ '?' :: q) =
      some { userId := id, path := rPath.take (11 + id.length + 0), query := some q } := by
  simp only [matchIdSlugQuery, takeWhile_append_all id ('?' :: q) hall]
  have h1 : ('?' :: q).takeWhile isAsciiDigit = [] := rfl
  simp only [h1, List.append_nil, if_neg hid, List.drop_left]
  simp [hq]

theorem matchIdSlugQuery_sn (rPath id w : Str)
    (hid : id ≠ []) (hall : ∀ x ∈ id, isAsciiDigit x = true)
    (hwne : w ≠ []) (hwall : ∀ x ∈ w, isSlugChar x = true) :
    matchIdSlugQuery rPath (id ++ '-' :: w) =
      some { userId := id, path := rPath.take (11 + id.length + (w.length + 1)),
             query := none } := by
  simp only [matchIdSlugQuery, takeWhile_append_all id ('-' :: w) hall]
  have h1 : ('-' :: w).takeWhile isAsciiDigit = [] := rfl
  simp only [h1, List.append_nil, if_neg hid, List.drop_left]
  simp only [takeWhile_eq_self_of_all w hwall, if_neg hwne, List.drop_length]

theorem matchIdSlugQuery_sq (rPath id w q : Str)
    (hid : id ≠ []) (hall : ∀ x ∈ id, isAsciiDigit x = true)
    (hwne : w ≠ []) (hwall : ∀ x ∈ w, isSlugChar x = true)
    (hq : '\n' ∉ q) :
    matchIdSlugQuery rPath (id ++ '-' :: (w ++ '?' :: q)) =
      some { userId := id, path := rPath.take (11 + id.length + (w.length + 1)),
             query := some q } := by
  simp only [matchIdSlugQuery, takeWhile_append_all id ('-' :: (w ++ '?' :: q)) hall]
  have h1 : ('-' :: (w ++ '?' :: q)).takeWhile isAsciiDigit = [] := rfl
  simp only [h1, List.append_nil, if_neg hid, List.drop_left]
  have h2 : ('?' :: q).takeWhile isSlugChar = [] := rfl
  simp only [takeWhile_append_all w ('?' :: q) hwall, h2, List.append_nil,
    if_neg hwne, List.drop_left]
  simp [hq]

theorem matchProfile_render (c : CanonicalProfileURL) (h : wfCanonical c) :
    ∃ m, matchProfile (renderProfileURL c) = some m ∧ m.userId = c.userId := by
  rcases c with ⟨sec, www, id, slug, query⟩
  obtain ⟨hid, hall, hslug, hq⟩ := h
  simp only [List.all_eq_true] at hall
  rcases slug with _ | w
  · rcases query with _ | q
    · cases sec <;> cases www <;>
        (simp only [renderProfileURL]
         simp
         exact ⟨_, matchIdSlugQuery_nn _ id hid hall, rfl⟩)
    · have hnl : '\n' ∉ q := by
        intro hm
        have h2 := List.all_eq_true.mp (hq q rfl).1 '\n' hm
        simp at h2
      cases sec <;> cases www <;>
        (simp only [renderProfileURL]
         simp
         exact ⟨_, matchIdSlugQuery_nq _ id q hid hall hnl, rfl⟩)
  · obtain ⟨hwne, hwall⟩ := hslug w rfl
    simp only [List.all_eq_true] at hwall
    rcases query with _ | q
    · cases sec <;> cases www <;>
        (simp only [renderProfileURL]
         simp
         exact ⟨_, matchIdSlugQuery_sn _ id w hid hall hwne hwall, rfl⟩)
    · have hnl : '\n' ∉ q := by
        intro hm
        have h2 := List.all_eq_true.mp (hq q rfl).1 '\n' hm
        simp at h2
      cases sec <;> cases www <;>
        (simp only [renderProfileURL]
         simp
         exact ⟨_, matchIdSlugQuery_sq _ id w q hid hall hwne hwall hnl, rfl⟩)

theorem render_not_space (c : CanonicalProfileURL) (h : wfCanonical c) :
    ∀ x ∈ renderProfileURL c, pyIsSpace x = false := by
  rcases c with ⟨sec, www, id, slug, query⟩
  obtain ⟨hid, hall, hslug, hq⟩ := h
  simp only [List.all_eq_true] at hall
  intro x hx
  simp only [renderProfileURL, List.mem_append] at hx
  rcases hx with (((((h1 | h2) | h3) | h4) | h5) | h6) | h7
  · revert h1
    cases sec <;> intro h1 <;> fin_cases h1 <;> decide
  · fin_cases h2 <;> decide
  · revert h3
    cases www <;> intro h3
    · simp at h3
    · fin_cases h3 <;> decide
  · fin_cases h4 <;> decide
  · exact isAsciiDigit_not_space x (hall x h5)
  · rcases slug with _ | w
    · simp at h6
    · rcases List.mem_cons.mp h6 with rfl | hmw
      · decide
      · obtain ⟨_, hwall⟩ := hslug w rfl
        simp only [List.all_eq_true] at hwall
        exact isSlugChar_not_space x (hwall x hmw)
  · rcases query with _ | q
    · simp at h7
    · rcases List.mem_cons.mp h7 with rfl | hmq
      · decide
      · have := (hq q rfl).2
        simp only [List.all_eq_true, decide_eq_true_eq] at this
        exact this x hmq

/-- CLAIM C1 (corrected): the null-dated `ReadRecord` synthesis happens
only inside the successful review-page enrichment branch.  Scenario A —
a 1-row listing for shelf `read` with row `{id: "1", title: "T",
author: "A"}` (hence no review-page link) and no next link — produces a
Library with exactly one `UserBookRelation` whose `reading_status` is
`read` and ZERO read records, not one; but whenever an item carries a
truthy review URL whose fetch and parse succeed and its final reading
status is `read`, its `read_records` key is set to exactly one null-dated
record (the review-page dates dictionary never carries read records, so
the synthesized record is the only one). -/
theorem C1_read_record_synthesis :
    ((scrape_library (("https://www.goodreads.com/user/show/1").data) false {}
        [((("read").data), 1)]
        (fun _ _ =>
          { books := [{ goodreads_id := some (("1").data)
                        title := some (some (("T").data))
                        author := some (some (("A").data)) }]
            has_next_page := false })
        (fun _ => none) (fun _ => none) none { year := 2025, month := 1, day := 2 } 5).map
      (fun lib => lib.user_books.map (fun ub => (ub.reading_status, ub.read_records.length))) =
      .ok [(some RStatus.read, 0)]) ∧
    (∀ (now : PyDateTime) (reviewOf : Str → Option ReviewPageResult)
      (detailOf : Str → Option DetailData) (b : RowData) (rurl : Str)
      (rp : ReviewPageResult),
      b.review_url = some rurl → rurl ≠ [] → reviewOf rurl = some rp →
      (if truthyS b.reading_status = true then b.reading_status
        else rp.reading_status) = some (("read").data) →
      (enrichBook now reviewOf detailOf b).read_records = some [(none, none)]) :=
  ⟨by decide,
   fun now reviewOf detailOf b rurl rp hurl hne hrev hfinal =>
     enrichBook_read_records_synth now reviewOf detailOf b rurl rp hurl hne hrev hfinal⟩

/-- Witness for C1: the synthesis conjunct applied to a concrete row
with a review URL whose fetch yields a review page with no dated
read-through, tagged `read` by the shelf crawl. -/
theorem C1_read_record_synthesis_witness :
    (enrichBook { year := 2025, month := 1, day := 2 }
        (fun _ => some ({} : ReviewPageResult))
        (fun _ => none)
        { goodreads_id := some (("1").data)
          title := some (some (("T").data))
          author := some (some (("A").data))
          review_url := some (("https://www.goodreads.com/review/show/9").data)
          reading_status := some (("read").data) }).read_records = some [(none, none)] :=
  C1_read_record_synthesis.2 { year := 2025, month := 1, day := 2 }
    (fun _ => some ({} : ReviewPageResult)) (fun _ => none)
    { goodreads_id := some (("1").data)
      title := some (some (("T").data))
      author := some (some (("A").data))
      review_url := some (("https://www.goodreads.com/review/show/9").data)
      reading_status := some (("read").data) }
    (("https://www.goodreads.com/review/show/9").data) ({} : ReviewPageResult)
    rfl (by decide) rfl (by decide)

/-- Counterexample for C1 as stated: scenario A's row has no review-page
link, so the enrichment never synthesizes a record — the resulting
Library has exactly one relation with `reading_status` `read` and an
EMPTY read-record list, not one null-dated record. -/
theorem C1_counterexample :
    (scrape_library (("https://www.goodreads.com/user/show/1").data) false {}
        [((("read").data), 1)]
        (fun _ _ =>
          { books := [{ goodreads_id := some (("1").data)
                        title := some (some (("T").data))
                        author := some (some (("A").data)) }]
            has_next_page := false })
        (fun _ => none) (fun _ => none) none { year := 2025, month := 1, day := 2 } 5).map
      (fun lib => lib.user_books.map (fun ub => (ub.reading_status, ub.read_records))) =
      .ok [(some RStatus.read, [])] := by decide

/-- CLAIM C2 (corrected): the CSV flattening law holds only for libraries
in which every relation carries a reading status (the exporter evaluates
`user_book.reading_status.value`, which raises on `None`).  On such a
library the export succeeds and produces, for each relation filed on N
shelves, exactly N consecutive rows — one per shelf, in shelf order —
all identical in every column except `shelf_name` and
`is_builtin_shelf`, and the total row count equals the sum over all
relations of their shelf-list lengths. -/
theorem C2_csv_flattening (lib : LibraryM)
    (h : ∀ ub ∈ lib.user_books, ub.reading_status.isSome) :
    ∃ rows, library_to_csv_rows lib = .ok rows ∧
      rows = (lib.user_books.map (fun ub => ub.shelves.map (csvRowFor lib ub))).flatten ∧
      rows.length = (lib.user_books.map (fun ub => ub.shelves.length)).sum ∧
      ∀ ub ∈ lib.user_books, ∀ s1 ∈ ub.shelves, ∀ s2 ∈ ub.shelves,
        maskShelfCols (csvRowFor lib ub s1) = maskShelfCols (csvRowFor lib ub s2) := by
  refine ⟨_, library_to_csv_rows_ok lib h, rfl, ?_, ?_⟩
  · simp [List.length_flatten, List.map_map, Function.comp_def]
  · intro ub _ s1 _ s2 _
    rfl

/-- Witness for C2: the flattening law at a concrete one-relation,
two-shelf library with a `read` status. -/
theorem C2_csv_flattening_witness :
    ∃ rows, library_to_csv_rows csvDemoLibrary = .ok rows ∧
      rows = (csvDemoLibrary.user_books.map
        (fun ub => ub.shelves.map (csvRowFor csvDemoLibrary ub))).flatten ∧
      rows.length = (csvDemoLibrary.user_books.map (fun ub => ub.shelves.length)).sum ∧
      ∀ ub ∈ csvDemoLibrary.user_books, ∀ s1 ∈ ub.shelves, ∀ s2 ∈ ub.shelves,
        maskShelfCols (csvRowFor csvDemoLibrary ub s1) =
          maskShelfCols (csvRowFor csvDemoLibrary ub s2) :=
  C2_csv_flattening csvDemoLibrary (by decide)

/-- Counterexample for C2 as stated ("for every Library"): a valid
library whose single relation has a `None` reading status makes the
export raise (`reading_status.value` on `None`) instead of producing
rows. -/
theorem C2_counterexample :
    library_to_csv_rows csvDemoLibraryNoStatus = .error () := by decide

/-- CLAIM C5 (corrected): the round-trip law holds relative to the
validator's initial `strip`.  Every well-formed member of the canonical
profile-URL grammar (protocol, optional `www.`, fixed `/user/show/`
segment, numeric id, optional slug, optional query) validates with
`is_valid=true` and the extracted id equal to its id segment; and every
input whose STRIPPED form fails the profile regex — including every
empty input — yields `(false, "", None)`.  The claim as literally stated
(non-members get `is_valid=false`) fails, because `validate` strips the
input before matching: see the counterexample. -/
theorem C5_url_validation :
    (∀ c : CanonicalProfileURL, wfCanonical c →
      (validate_goodreads_profile_url (renderProfileURL c)).1 = true ∧
      (validate_goodreads_profile_url (renderProfileURL c)).2.2 = some c.userId) ∧
    (∀ s : Str, matchProfile (pyStrip s) = none →
      validate_goodreads_profile_url s = (false, [], none)) := by
  constructor
  · intro c hwf
    obtain ⟨m, hm, hmid⟩ := matchProfile_render c hwf
    have hne : renderProfileURL c ≠ [] := by
      rcases c with ⟨sec, www, id, slug, query⟩
      cases sec <;> simp [renderProfileURL]
    have hstrip : pyStrip (renderProfileURL c) = renderProfileURL c :=
      pyStrip_noop _ (render_not_space c hwf)
    simp only [validate_goodreads_profile_url, if_neg hne, hstrip, hm]
    exact ⟨trivial, by rw [hmid]⟩
  · intro s hs
    by_cases hnil : s = []
    · simp only [validate_goodreads_profile_url, if_pos hnil]
    · simp only [validate_goodreads_profile_url, if_neg hnil, hs]

/-- Witness for C5: the positive direction at the concrete canonical URL
`https://www.goodreads.com/user/show/123-jane-doe?ref=nav`, and the
negative direction at the non-matching input `https://example.com/user/show/1`. -/
theorem C5_url_validation_witness :
    ((validate_goodreads_profile_url (renderProfileURL
        { secure := true, www := true, userId := ("123").data,
          slug := some (("jane-doe").data), query := some (("ref=nav").data) })).1 = true ∧
      (validate_goodreads_profile_url (renderProfileURL
        { secure := true, www := true, userId := ("123").data,
          slug := some (("jane-doe").data), query := some (("ref=nav").data) })).2.2 =
        some (("123").data)) ∧
    validate_goodreads_profile_url (("https://example.com/user/show/1").data) =
      (false, [], none) :=
  ⟨C5_url_validation.1
      { secure := true, www := true, userId := ("123").data,
        slug := some (("jane-doe").data), query := some (("ref=nav").data) }
      ⟨by decide, by decide,
       fun w hw => by cases hw; exact ⟨by decide, by decide⟩,
       fun q hq => by cases hq; exact ⟨by decide, by decide⟩⟩,
   C5_url_validation.2 (("https://example.com/user/show/1").data) (by decide)⟩

end GoodreadsExplorer
